import Mathlib

/-!
BasicStorageImage (Source/BasicStorageImage.cpp)

A shallow embedding of the storage-image resource of RayTracedGL1: the host-side
object state, the calls it issues to the device, the memory allocator and the
command-buffer manager (recorded as a trace), and the answers those
collaborators give (supplied as replies).

Handles are natural numbers, `VK_NULL_HANDLE` is `0`.  `width` and `height` are
`uint32_t` in the source; no arithmetic is done on them, so they are kept as
natural numbers.
-/

namespace RTGL1

/-! ## Vulkan vocabulary used by the source -/

/-- Opaque Vulkan handle (VkImage, VkImageView, VkDeviceMemory, ...). -/
abbrev VkHandle := Nat

/-- The null handle. -/
def VK_NULL_HANDLE : VkHandle := 0

/-- Result code of a device call: success, or an error with its (negative) code. -/
inductive VkResult where
  | VK_SUCCESS
  | VK_ERROR (code : Int)
  deriving DecidableEq, Repr

/-- The error a descriptor pool answers when it has no room left. -/
def VK_ERROR_OUT_OF_POOL_MEMORY : VkResult := VkResult.VK_ERROR (-1000069000)

/-- Image layouts named in the source. -/
inductive VkImageLayout where
  | VK_IMAGE_LAYOUT_UNDEFINED
  | VK_IMAGE_LAYOUT_GENERAL
  deriving DecidableEq, Repr

/-- Pixel formats named in the source. -/
inductive VkFormat where
  | VK_FORMAT_R32G32B32A32_SFLOAT
  deriving DecidableEq, Repr

/-- Descriptor types named in the source. -/
inductive VkDescriptorType where
  | VK_DESCRIPTOR_TYPE_STORAGE_IMAGE
  deriving DecidableEq, Repr

/-- Image usage bits named in the source. -/
inductive VkImageUsageFlagBits where
  | VK_IMAGE_USAGE_TRANSFER_SRC_BIT
  | VK_IMAGE_USAGE_STORAGE_BIT
  deriving DecidableEq, Repr

/-- Shader stages named in the source. -/
inductive VkShaderStageFlagBits where
  | VK_SHADER_STAGE_RAYGEN_BIT_KHR
  deriving DecidableEq, Repr

/-- Memory property bits named in the source. -/
inductive VkMemoryPropertyFlagBits where
  | VK_MEMORY_PROPERTY_DEVICE_LOCAL_BIT
  deriving DecidableEq, Repr

/-- Access mask: the set of access bits, the empty list being the literal `0`. -/
inductive VkAccessFlagBits where
  | VK_ACCESS_SHADER_READ_BIT
  | VK_ACCESS_SHADER_WRITE_BIT
  deriving DecidableEq, Repr

/-- Object kinds passed to SET_DEBUG_NAME. -/
inductive VkDebugReportObjectTypeEXT where
  | VK_DEBUG_REPORT_OBJECT_TYPE_IMAGE_EXT
  | VK_DEBUG_REPORT_OBJECT_TYPE_IMAGE_VIEW_EXT
  | VK_DEBUG_REPORT_OBJECT_TYPE_DESCRIPTOR_SET_EXT
  | VK_DEBUG_REPORT_OBJECT_TYPE_DESCRIPTOR_SET_LAYOUT_EXT
  deriving DecidableEq, Repr

/-- The fields of VkImageCreateInfo that CreateImage fills in (the constant tags
sType, imageType, samples and tiling are left out). -/
structure VkImageCreateInfo where
  format : VkFormat
  extentWidth : Nat
  extentHeight : Nat
  extentDepth : Nat
  mipLevels : Nat
  arrayLayers : Nat
  usage : List VkImageUsageFlagBits
  initialLayout : VkImageLayout
  deriving DecidableEq, Repr

/-- What vkGetImageMemoryRequirements writes. -/
structure VkMemoryRequirements where
  size : Nat
  alignment : Nat
  memoryTypeBits : Nat
  deriving DecidableEq, Repr

/-- The fields of VkImageViewCreateInfo that CreateImage fills in (the constant
tags sType, viewType and aspectMask are left out). -/
structure VkImageViewCreateInfo where
  format : VkFormat
  baseMipLevel : Nat
  levelCount : Nat
  baseArrayLayer : Nat
  layerCount : Nat
  image : VkHandle
  deriving DecidableEq, Repr

/-- The image part of a descriptor write. -/
structure VkDescriptorImageInfo where
  imageView : VkHandle
  imageLayout : VkImageLayout
  deriving DecidableEq, Repr

/-- One element of the array handed to vkUpdateDescriptorSets. -/
structure VkWriteDescriptorSet where
  dstSet : VkHandle
  dstBinding : Nat
  dstArrayElement : Nat
  descriptorType : VkDescriptorType
  descriptorCount : Nat
  pImageInfo : VkDescriptorImageInfo
  deriving DecidableEq, Repr

/-- The single binding of the descriptor set layout. -/
structure VkDescriptorSetLayoutBinding where
  binding : Nat
  descriptorType : VkDescriptorType
  descriptorCount : Nat
  stageFlags : List VkShaderStageFlagBits
  deriving DecidableEq, Repr

/-- Layout creation parameters; `pBindings` is the array of `bindingCount`
bindings. -/
structure VkDescriptorSetLayoutCreateInfo where
  bindingCount : Nat
  pBindings : List VkDescriptorSetLayoutBinding
  deriving DecidableEq, Repr

/-- One pool size entry. -/
structure VkDescriptorPoolSize where
  type : VkDescriptorType
  descriptorCount : Nat
  deriving DecidableEq, Repr

/-- Pool creation parameters; `pPoolSizes` is the array of `poolSizeCount`
sizes. -/
structure VkDescriptorPoolCreateInfo where
  poolSizeCount : Nat
  pPoolSizes : List VkDescriptorPoolSize
  maxSets : Nat
  deriving DecidableEq, Repr

/-- Set allocation parameters; `pSetLayouts` is the array of
`descriptorSetCount` layouts. -/
structure VkDescriptorSetAllocateInfo where
  descriptorPool : VkHandle
  descriptorSetCount : Nat
  pSetLayouts : List VkHandle
  deriving DecidableEq, Repr

/-! ## The calls the object issues -/

/-- A call made on the device, the allocator or the command-buffer manager,
with the arguments the source passes. -/
inductive Call where
  | vkCreateImage (info : VkImageCreateInfo)
  | vkGetImageMemoryRequirements (image : VkHandle)
  | AllocDedicated (memReqs : VkMemoryRequirements)
      (properties : List VkMemoryPropertyFlagBits)
  | vkBindImageMemory (image memory : VkHandle) (offset : Nat)
  | vkCreateImageView (info : VkImageViewCreateInfo)
  | SET_DEBUG_NAME (obj : VkHandle) (type : VkDebugReportObjectTypeEXT) (name : String)
  | StartGraphicsCmd
  | BarrierImage (cmd image : VkHandle) (srcAccessMask dstAccessMask : List VkAccessFlagBits)
      (oldLayout newLayout : VkImageLayout)
  | Submit (cmd : VkHandle)
  | WaitGraphicsIdle
  | vkUpdateDescriptorSets (descriptorWriteCount : Nat) (writes : List VkWriteDescriptorSet)
  | vkDestroyImage (image : VkHandle)
  | vkDestroyImageView (view : VkHandle)
  | FreeDedicated (memory : VkHandle)
  | vkCreateDescriptorSetLayout (info : VkDescriptorSetLayoutCreateInfo)
  | vkCreateDescriptorPool (info : VkDescriptorPoolCreateInfo)
  | vkAllocateDescriptorSets (info : VkDescriptorSetAllocateInfo)
  | vkDestroyDescriptorPool (pool : VkHandle)
  | vkDestroyDescriptorSetLayout (layout : VkHandle)
  deriving DecidableEq, Repr

/-- Calls that create or destroy a descriptor layout or a descriptor pool. -/
def Call.isDescriptorLayoutOrPoolLifetime : Call → Bool
  | .vkCreateDescriptorSetLayout _ => true
  | .vkCreateDescriptorPool _ => true
  | .vkDestroyDescriptorPool _ => true
  | .vkDestroyDescriptorSetLayout _ => true
  | _ => false

/-- Calls that release an object: the three issued by DestroyImage and the two
issued by the destructor. -/
def Call.isRelease : Call → Bool
  | .vkDestroyImage _ => true
  | .vkDestroyImageView _ => true
  | .FreeDedicated _ => true
  | .vkDestroyDescriptorPool _ => true
  | .vkDestroyDescriptorSetLayout _ => true
  | _ => false

/-- How a member function ends. -/
inductive Outcome where
  | ok
  | ResourceCreationFailure
  deriving DecidableEq, Repr

/-- Modelled from the spec: the macro VK_CHECKERROR (Utils.h is not among the
sources).  Section 7 of the specification: a failing device creation or
allocation call is a fatal ResourceCreationFailure handed to the caller.  The
check passes exactly on VK_SUCCESS. -/
def VK_CHECKERROR (r : VkResult) : Bool :=
  decide (r = VkResult.VK_SUCCESS)

/-! ## Object state -/

/-- The data members of BasicStorageImage.  `N` is MAX_FRAMES_IN_FLIGHT, whose
definition is not among the sources; `device`, `allocator` and `cmdManager` are
the borrowed collaborators and are represented by the trace of calls. -/
structure BasicStorageImage (N : Nat) where
  image : VkHandle
  imageLayout : VkImageLayout
  width : Nat
  height : Nat
  view : VkHandle
  memory : VkHandle
  descLayout : VkHandle
  descPool : VkHandle
  descSets : Fin N → VkHandle

/-- Result of a member function: how it ended, the object afterwards, and the
calls it issued in order. -/
structure Run (N : Nat) where
  outcome : Outcome
  state : BasicStorageImage N
  calls : List Call

/-! ## Replies of the collaborators -/

/-- Modelled from the spec: MemoryAllocator::AllocDedicated (MemoryAllocator is
not among the sources).  Section 6: `AllocDedicated(memoryRequirements,
memoryPropertyFlags) -> memoryHandle | fails`. -/
inductive AllocDedicatedReply where
  | memoryHandle (h : VkHandle)
  | fails
  deriving DecidableEq, Repr

/-- What the device, the allocator and the command-buffer manager answer to the
calls of one CreateImage. -/
structure CreateImageReplies where
  vkCreateImage : VkResult × VkHandle
  vkGetImageMemoryRequirements : VkMemoryRequirements
  AllocDedicated : AllocDedicatedReply
  vkBindImageMemory : VkResult
  vkCreateImageView : VkResult × VkHandle
  StartGraphicsCmd : VkHandle
  deriving DecidableEq, Repr

/-- The memory handle the allocator handed back, the null handle when it failed. -/
def AllocDedicatedReply.handle : AllocDedicatedReply → VkHandle
  | .memoryHandle h => h
  | .fails => VK_NULL_HANDLE

/-- The allocator did not fail. -/
def AllocDedicatedReply.returned : AllocDedicatedReply → Bool
  | .memoryHandle _ => true
  | .fails => false

/-- Every call of CreateImage succeeds and every handle handed back is non-null. -/
def CreateImageReplies.allSucceed (e : CreateImageReplies) : Prop :=
  e.vkCreateImage.1 = VkResult.VK_SUCCESS ∧ e.vkCreateImage.2 ≠ VK_NULL_HANDLE ∧
  e.AllocDedicated.returned = true ∧ e.AllocDedicated.handle ≠ VK_NULL_HANDLE ∧
  e.vkBindImageMemory = VkResult.VK_SUCCESS ∧
  e.vkCreateImageView.1 = VkResult.VK_SUCCESS ∧ e.vkCreateImageView.2 ≠ VK_NULL_HANDLE ∧
  e.StartGraphicsCmd ≠ VK_NULL_HANDLE

instance (e : CreateImageReplies) : Decidable e.allSucceed := by
  unfold CreateImageReplies.allSucceed
  infer_instance

/-! ## Member functions -/

/-- BasicStorageImage::UpdateDescriptors: one write per frame slot, all handed to
a single vkUpdateDescriptorSets.  `B` is BINDING_STORAGE_IMAGE, whose definition
is not among the sources. -/
def UpdateDescriptors {N : Nat} (B : Nat) (s : BasicStorageImage N) : List Call :=
  let writes : List VkWriteDescriptorSet := List.ofFn fun i : Fin N =>
    { dstSet := s.descSets i
      dstBinding := B
      dstArrayElement := 0
      descriptorType := VkDescriptorType.VK_DESCRIPTOR_TYPE_STORAGE_IMAGE
      descriptorCount := 1
      pImageInfo :=
        { imageView := s.view
          imageLayout := VkImageLayout.VK_IMAGE_LAYOUT_GENERAL } }
  [Call.vkUpdateDescriptorSets N writes]

/-- BasicStorageImage::CreateImage. -/
def CreateImage {N : Nat} (B : Nat) (e : CreateImageReplies) (width height : Nat)
    (s : BasicStorageImage N) : Run N :=
  let s := { s with width := width, height := height }
  let format := VkFormat.VK_FORMAT_R32G32B32A32_SFLOAT
  let imageInfo : VkImageCreateInfo :=
    { format := format
      extentWidth := width
      extentHeight := height
      extentDepth := 1
      mipLevels := 1
      arrayLayers := 1
      usage := [VkImageUsageFlagBits.VK_IMAGE_USAGE_TRANSFER_SRC_BIT,
                VkImageUsageFlagBits.VK_IMAGE_USAGE_STORAGE_BIT]
      initialLayout := VkImageLayout.VK_IMAGE_LAYOUT_UNDEFINED }
  -- r = vkCreateImage(device, &imageInfo, nullptr, &image)
  let r := e.vkCreateImage.1
  let s := { s with image := e.vkCreateImage.2 }
  let t := [Call.vkCreateImage imageInfo]
  if VK_CHECKERROR r = false then ⟨Outcome.ResourceCreationFailure, s, t⟩ else
  let memReqs := e.vkGetImageMemoryRequirements
  let t := t ++ [Call.vkGetImageMemoryRequirements s.image]
  let t := t ++ [Call.AllocDedicated memReqs
    [VkMemoryPropertyFlagBits.VK_MEMORY_PROPERTY_DEVICE_LOCAL_BIT]]
  match e.AllocDedicated with
  | AllocDedicatedReply.fails => ⟨Outcome.ResourceCreationFailure, s, t⟩
  | AllocDedicatedReply.memoryHandle m =>
  let s := { s with memory := m }
  let r := e.vkBindImageMemory
  let t := t ++ [Call.vkBindImageMemory s.image s.memory 0]
  if VK_CHECKERROR r = false then ⟨Outcome.ResourceCreationFailure, s, t⟩ else
  let viewInfo : VkImageViewCreateInfo :=
    { format := format
      baseMipLevel := 0
      levelCount := 1
      baseArrayLayer := 0
      layerCount := 1
      image := s.image }
  -- r = vkCreateImageView(device, &viewInfo, nullptr, &view)
  let r := e.vkCreateImageView.1
  let s := { s with view := e.vkCreateImageView.2 }
  let t := t ++ [Call.vkCreateImageView viewInfo]
  if VK_CHECKERROR r = false then ⟨Outcome.ResourceCreationFailure, s, t⟩ else
  let t := t ++
    [Call.SET_DEBUG_NAME s.image
       VkDebugReportObjectTypeEXT.VK_DEBUG_REPORT_OBJECT_TYPE_IMAGE_EXT "Output image",
     Call.SET_DEBUG_NAME s.view
       VkDebugReportObjectTypeEXT.VK_DEBUG_REPORT_OBJECT_TYPE_IMAGE_VIEW_EXT
       "Output image View"]
  let cmd := e.StartGraphicsCmd
  let t := t ++ [Call.StartGraphicsCmd]
  let t := t ++ [Call.BarrierImage cmd s.image
    [] [VkAccessFlagBits.VK_ACCESS_SHADER_WRITE_BIT]
    VkImageLayout.VK_IMAGE_LAYOUT_UNDEFINED VkImageLayout.VK_IMAGE_LAYOUT_GENERAL]
  let s := { s with imageLayout := VkImageLayout.VK_IMAGE_LAYOUT_GENERAL }
  let t := t ++ [Call.Submit cmd]
  let t := t ++ [Call.WaitGraphicsIdle]
  let t := t ++ UpdateDescriptors B s
  ⟨Outcome.ok, s, t⟩

/-- BasicStorageImage::DestroyImage. -/
def DestroyImage {N : Nat} (s : BasicStorageImage N) : Run N :=
  if s.image ≠ VK_NULL_HANDLE then
    let t := [Call.vkDestroyImage s.image,
              Call.vkDestroyImageView s.view,
              Call.FreeDedicated s.memory]
    let s := { s with image := VK_NULL_HANDLE }
    let s := { s with imageLayout := VkImageLayout.VK_IMAGE_LAYOUT_UNDEFINED }
    let s := { s with view := VK_NULL_HANDLE }
    let s := { s with memory := VK_NULL_HANDLE }
    ⟨Outcome.ok, s, t⟩
  else
    ⟨Outcome.ok, s, []⟩

/-- BasicStorageImage::Barrier: hands `image` by value to Utils::BarrierImage,
which records the dependency into `cmd`. -/
def Barrier {N : Nat} (cmd : VkHandle) (s : BasicStorageImage N) : Run N :=
  ⟨Outcome.ok, s,
    [Call.BarrierImage cmd s.image
      [VkAccessFlagBits.VK_ACCESS_SHADER_WRITE_BIT]
      [VkAccessFlagBits.VK_ACCESS_SHADER_READ_BIT]
      VkImageLayout.VK_IMAGE_LAYOUT_GENERAL VkImageLayout.VK_IMAGE_LAYOUT_GENERAL]⟩

/-! ## Descriptors: construction and teardown -/

/-- Modelled from the spec: the descriptor pool inside the device (the Vulkan
driver is not part of the repository).  Section 4.2 and property P5: the
capacity is fixed and never resized, and an allocation beyond it fails. -/
structure DescriptorPool where
  maxSets : Nat
  descriptorCount : Nat
  allocatedSets : Nat
  allocatedDescriptors : Nat
  deriving DecidableEq, Repr

/-- Modelled from the spec: the pool that vkCreateDescriptorPool makes from its
creation parameters, empty at first; its descriptor capacity is the sum over
the pool sizes (all of the one descriptor type the source uses). -/
def DescriptorPool.create (info : VkDescriptorPoolCreateInfo) : DescriptorPool :=
  { maxSets := info.maxSets
    descriptorCount :=
      ((info.pPoolSizes.take info.poolSizeCount).map fun z => z.descriptorCount).sum
    allocatedSets := 0
    allocatedDescriptors := 0 }

/-- Modelled from the spec: vkAllocateDescriptorSets on the pool, for `setCount`
sets of `perSet` descriptors each.  It is rejected when the sets or the
descriptors would exceed the capacity, and the pool is then left as it was. -/
def DescriptorPool.allocate (p : DescriptorPool) (setCount perSet : Nat) :
    VkResult × DescriptorPool :=
  if p.allocatedSets + setCount ≤ p.maxSets ∧
      p.allocatedDescriptors + setCount * perSet ≤ p.descriptorCount then
    (VkResult.VK_SUCCESS,
      { p with allocatedSets := p.allocatedSets + setCount
               allocatedDescriptors := p.allocatedDescriptors + setCount * perSet })
  else
    (VK_ERROR_OUT_OF_POOL_MEMORY, p)

/-- What the device answers to the calls of CreateDescriptors: the results and
handles of the layout and pool creation, and the handle of the set handed out
for each frame slot when the pool accepts the allocation. -/
structure CreateDescriptorsReplies (N : Nat) where
  vkCreateDescriptorSetLayout : VkResult × VkHandle
  vkCreateDescriptorPool : VkResult × VkHandle
  vkAllocateDescriptorSets : Fin N → VkHandle

/-- Result of construction: the run, and the device-side pool when one was
created. -/
structure DescriptorsRun (N : Nat) where
  run : Run N
  pool : Option DescriptorPool

/-- The allocation loop of CreateDescriptors over the remaining frame slots. -/
def CreateDescriptors.loop {N : Nat} (e : CreateDescriptorsReplies N)
    (allocInfo : VkDescriptorSetAllocateInfo) (perSet : Nat) :
    List (Fin N) → BasicStorageImage N → DescriptorPool → List Call → DescriptorsRun N
  | [], s, p, t => ⟨⟨Outcome.ok, s, t⟩, some p⟩
  | i :: rest, s, p, t =>
    -- r = vkAllocateDescriptorSets(device, &allocInfo, &descSets[i])
    let a := p.allocate allocInfo.descriptorSetCount perSet
    let r := a.1
    let h := if r = VkResult.VK_SUCCESS then e.vkAllocateDescriptorSets i else VK_NULL_HANDLE
    let s := { s with descSets := Function.update s.descSets i h }
    let t := t ++ [Call.vkAllocateDescriptorSets allocInfo]
    if VK_CHECKERROR r = false then ⟨⟨Outcome.ResourceCreationFailure, s, t⟩, some a.2⟩ else
    let t := t ++ [Call.SET_DEBUG_NAME (s.descSets i)
      VkDebugReportObjectTypeEXT.VK_DEBUG_REPORT_OBJECT_TYPE_DESCRIPTOR_SET_EXT
      "Storage image Desc set"]
    CreateDescriptors.loop e allocInfo perSet rest s a.2 t

/-- The local `storageImageBinding` of CreateDescriptors. -/
def CreateDescriptors.storageImageBinding (B : Nat) : VkDescriptorSetLayoutBinding :=
  { binding := B
    descriptorType := VkDescriptorType.VK_DESCRIPTOR_TYPE_STORAGE_IMAGE
    descriptorCount := 1
    stageFlags := [VkShaderStageFlagBits.VK_SHADER_STAGE_RAYGEN_BIT_KHR] }

/-- The local `layoutInfo` of CreateDescriptors. -/
def CreateDescriptors.layoutInfo (B : Nat) : VkDescriptorSetLayoutCreateInfo :=
  { bindingCount := 1
    pBindings := [CreateDescriptors.storageImageBinding B] }

/-- The local `poolSize` of CreateDescriptors. -/
def CreateDescriptors.poolSize (N : Nat) : VkDescriptorPoolSize :=
  { type := VkDescriptorType.VK_DESCRIPTOR_TYPE_STORAGE_IMAGE
    descriptorCount := N }

/-- The local `poolInfo` of CreateDescriptors. -/
def CreateDescriptors.poolInfo (N : Nat) : VkDescriptorPoolCreateInfo :=
  { poolSizeCount := 1
    pPoolSizes := [CreateDescriptors.poolSize N]
    maxSets := N }

/-- The local `allocInfo` of CreateDescriptors, filled from the members descPool
and descLayout. -/
def CreateDescriptors.allocInfo (descPool descLayout : VkHandle) :
    VkDescriptorSetAllocateInfo :=
  { descriptorPool := descPool
    descriptorSetCount := 1
    pSetLayouts := [descLayout] }

/-- BasicStorageImage::CreateDescriptors. -/
def CreateDescriptors {N : Nat} (B : Nat) (e : CreateDescriptorsReplies N)
    (s : BasicStorageImage N) : DescriptorsRun N :=
  -- r = vkCreateDescriptorSetLayout(device, &layoutInfo, nullptr, &descLayout)
  let r := e.vkCreateDescriptorSetLayout.1
  let s := { s with descLayout := e.vkCreateDescriptorSetLayout.2 }
  let t := [Call.vkCreateDescriptorSetLayout (CreateDescriptors.layoutInfo B)]
  if VK_CHECKERROR r = false then ⟨⟨Outcome.ResourceCreationFailure, s, t⟩, none⟩ else
  -- r = vkCreateDescriptorPool(device, &poolInfo, nullptr, &descPool)
  let r := e.vkCreateDescriptorPool.1
  let s := { s with descPool := e.vkCreateDescriptorPool.2 }
  let t := t ++ [Call.vkCreateDescriptorPool (CreateDescriptors.poolInfo N)]
  if VK_CHECKERROR r = false then ⟨⟨Outcome.ResourceCreationFailure, s, t⟩, none⟩ else
  let d := CreateDescriptors.loop e (CreateDescriptors.allocInfo s.descPool s.descLayout)
    (CreateDescriptors.storageImageBinding B).descriptorCount
    (List.finRange N) s (DescriptorPool.create (CreateDescriptors.poolInfo N)) t
  match d.run.outcome with
  | Outcome.ResourceCreationFailure => d
  | Outcome.ok =>
    ⟨⟨Outcome.ok, d.run.state, d.run.calls ++
      [Call.SET_DEBUG_NAME d.run.state.descLayout
        VkDebugReportObjectTypeEXT.VK_DEBUG_REPORT_OBJECT_TYPE_DESCRIPTOR_SET_LAYOUT_EXT
        "Storage image Desc set Layout"]⟩, d.pool⟩

/-- The constructor BasicStorageImage::BasicStorageImage: the member
initialisers, then CreateDescriptors. -/
def BasicStorageImage.ctor {N : Nat} (B : Nat)
    (e : CreateDescriptorsReplies N) : DescriptorsRun N :=
  CreateDescriptors B e
    { image := VK_NULL_HANDLE
      imageLayout := VkImageLayout.VK_IMAGE_LAYOUT_UNDEFINED
      width := 0
      height := 0
      view := VK_NULL_HANDLE
      memory := VK_NULL_HANDLE
      descLayout := VK_NULL_HANDLE
      descPool := VK_NULL_HANDLE
      descSets := fun _ => VK_NULL_HANDLE }

/-- The destructor: DestroyImage, then the pool and the layout are destroyed. -/
def BasicStorageImage.destructor {N : Nat} (s : BasicStorageImage N) : Run N :=
  let d := DestroyImage s
  ⟨Outcome.ok, d.state, d.calls ++
    [Call.vkDestroyDescriptorPool d.state.descPool,
     Call.vkDestroyDescriptorSetLayout d.state.descLayout]⟩

/-! ## Observations on traces and sequences of calls -/

/-- All descriptor writes handed to the device by a trace, in order. -/
def descriptorWrites : List Call → List VkWriteDescriptorSet
  | [] => []
  | Call.vkUpdateDescriptorSets n ws :: cs => ws.take n ++ descriptorWrites cs
  | _ :: cs => descriptorWrites cs

/-- The last write a trace issued to the descriptor set `set`, as a device
that records the last write per set would report it. -/
def lastWrite (cs : List Call) (set : VkHandle) : Option VkWriteDescriptorSet :=
  (descriptorWrites cs).reverse.find? fun w => decide (w.dstSet = set)

/-- The calls of a trace that allocate descriptor sets. -/
def Call.isAllocateDescriptorSets : Call → Bool
  | .vkAllocateDescriptorSets _ => true
  | _ => false

/-- The calls of a trace that create a descriptor pool. -/
def Call.isCreateDescriptorPool : Call → Bool
  | .vkCreateDescriptorPool _ => true
  | _ => false

/-- The public operations on a constructed object. -/
inductive Op where
  | createImage (e : CreateImageReplies) (width height : Nat)
  | destroyImage
  | barrier (cmd : VkHandle)
  deriving DecidableEq, Repr

/-- One operation applied to the object. -/
def Op.apply {N : Nat} (B : Nat) (s : BasicStorageImage N) : Op → Run N
  | .createImage e w h => CreateImage B e w h s
  | .destroyImage => DestroyImage s
  | .barrier cmd => Barrier cmd s

/-- A CreateImage with positive dimensions whose calls all succeed with non-null
handles; DestroyImage and Barrier are always admitted. -/
def Op.successful : Op → Prop
  | .createImage e w h => 0 < w ∧ 0 < h ∧ e.allSucceed
  | .destroyImage => True
  | .barrier _ => True

instance (o : Op) : Decidable o.successful := by
  cases o <;> unfold Op.successful <;> infer_instance

/-- The object after a sequence of operations. -/
def runOps {N : Nat} (B : Nat) (s : BasicStorageImage N) (ops : List Op) :
    BasicStorageImage N :=
  ops.foldl (fun st o => (Op.apply B st o).state) s

/-- The sequence CreateImage(w1,h1); DestroyImage(); CreateImage(w2,h2). -/
def recreate {N : Nat} (B : Nat) (e1 : CreateImageReplies) (w1 h1 : Nat)
    (e2 : CreateImageReplies) (w2 h2 : Nat) (s : BasicStorageImage N) : Run N :=
  CreateImage B e2 w2 h2 (DestroyImage (CreateImage B e1 w1 h1 s).state).state

/-- The state in which image, view and memory are all the null handle. -/
def BasicStorageImage.allNull {N : Nat} (s : BasicStorageImage N) : Prop :=
  s.image = VK_NULL_HANDLE ∧ s.view = VK_NULL_HANDLE ∧ s.memory = VK_NULL_HANDLE

/-- The state in which image, view and memory are all non-null. -/
def BasicStorageImage.allValid {N : Nat} (s : BasicStorageImage N) : Prop :=
  s.image ≠ VK_NULL_HANDLE ∧ s.view ≠ VK_NULL_HANDLE ∧ s.memory ≠ VK_NULL_HANDLE

instance {N : Nat} (s : BasicStorageImage N) : Decidable s.allNull := by
  unfold BasicStorageImage.allNull
  infer_instance

instance {N : Nat} (s : BasicStorageImage N) : Decidable s.allValid := by
  unfold BasicStorageImage.allValid
  infer_instance

/-- The Uninitialized state of the specification: no handle, layout undefined. -/
def BasicStorageImage.Uninitialized {N : Nat} (s : BasicStorageImage N) : Prop :=
  s.allNull ∧ s.imageLayout = VkImageLayout.VK_IMAGE_LAYOUT_UNDEFINED

instance {N : Nat} (s : BasicStorageImage N) : Decidable s.Uninitialized := by
  unfold BasicStorageImage.Uninitialized
  infer_instance

/-- The write that UpdateDescriptors builds for the descriptor set `set` when the
view of the object is `view`: binding B, array element 0, one storage-image
descriptor, layout GENERAL. -/
def storageImageWrite (B : Nat) (set view : VkHandle) : VkWriteDescriptorSet :=
  { dstSet := set
    dstBinding := B
    dstArrayElement := 0
    descriptorType := VkDescriptorType.VK_DESCRIPTOR_TYPE_STORAGE_IMAGE
    descriptorCount := 1
    pImageInfo :=
      { imageView := view
        imageLayout := VkImageLayout.VK_IMAGE_LAYOUT_GENERAL } }

/-- The resource is in one of the two states of the specification: no handle
and layout UNDEFINED, or all three handles and layout GENERAL. -/
def BasicStorageImage.consistent {N : Nat} (s : BasicStorageImage N) : Prop :=
  (s.allNull ∧ s.imageLayout = VkImageLayout.VK_IMAGE_LAYOUT_UNDEFINED) ∨
  (s.allValid ∧ s.imageLayout = VkImageLayout.VK_IMAGE_LAYOUT_GENERAL)

/-! ## Order of effects inside CreateImage -/

/-- What CreateImage does, in program order: a call on a collaborator, or the
assignment of the member `imageLayout`. -/
inductive Effect where
  | call (c : Call)
  | assignImageLayout (l : VkImageLayout)
  deriving DecidableEq, Repr

/-- The calls among a list of effects, in order. -/
def Effect.calls : List Effect → List Call
  | [] => []
  | Effect.call c :: es => c :: Effect.calls es
  | Effect.assignImageLayout _ :: es => Effect.calls es

/-- BasicStorageImage::CreateImage once more, statement by statement, keeping
the calls and the assignment `imageLayout = VK_IMAGE_LAYOUT_GENERAL` in the
order of the source. -/
def CreateImage.effects {N : Nat} (B : Nat) (e : CreateImageReplies) (width height : Nat)
    (s : BasicStorageImage N) : List Effect :=
  let s := { s with width := width, height := height }
  let format := VkFormat.VK_FORMAT_R32G32B32A32_SFLOAT
  let imageInfo : VkImageCreateInfo :=
    { format := format
      extentWidth := width
      extentHeight := height
      extentDepth := 1
      mipLevels := 1
      arrayLayers := 1
      usage := [VkImageUsageFlagBits.VK_IMAGE_USAGE_TRANSFER_SRC_BIT,
                VkImageUsageFlagBits.VK_IMAGE_USAGE_STORAGE_BIT]
      initialLayout := VkImageLayout.VK_IMAGE_LAYOUT_UNDEFINED }
  -- r = vkCreateImage(device, &imageInfo, nullptr, &image)
  let r := e.vkCreateImage.1
  let s := { s with image := e.vkCreateImage.2 }
  let t := [Effect.call (Call.vkCreateImage imageInfo)]
  if VK_CHECKERROR r = false then t else
  let memReqs := e.vkGetImageMemoryRequirements
  let t := t ++ [Effect.call (Call.vkGetImageMemoryRequirements s.image)]
  let t := t ++ [Effect.call (Call.AllocDedicated memReqs
    [VkMemoryPropertyFlagBits.VK_MEMORY_PROPERTY_DEVICE_LOCAL_BIT])]
  match e.AllocDedicated with
  | AllocDedicatedReply.fails => t
  | AllocDedicatedReply.memoryHandle m =>
  let s := { s with memory := m }
  let r := e.vkBindImageMemory
  let t := t ++ [Effect.call (Call.vkBindImageMemory s.image s.memory 0)]
  if VK_CHECKERROR r = false then t else
  let viewInfo : VkImageViewCreateInfo :=
    { format := format
      baseMipLevel := 0
      levelCount := 1
      baseArrayLayer := 0
      layerCount := 1
      image := s.image }
  -- r = vkCreateImageView(device, &viewInfo, nullptr, &view)
  let r := e.vkCreateImageView.1
  let s := { s with view := e.vkCreateImageView.2 }
  let t := t ++ [Effect.call (Call.vkCreateImageView viewInfo)]
  if VK_CHECKERROR r = false then t else
  let t := t ++
    [Effect.call (Call.SET_DEBUG_NAME s.image
       VkDebugReportObjectTypeEXT.VK_DEBUG_REPORT_OBJECT_TYPE_IMAGE_EXT "Output image"),
     Effect.call (Call.SET_DEBUG_NAME s.view
       VkDebugReportObjectTypeEXT.VK_DEBUG_REPORT_OBJECT_TYPE_IMAGE_VIEW_EXT
       "Output image View")]
  let cmd := e.StartGraphicsCmd
  let t := t ++ [Effect.call Call.StartGraphicsCmd]
  let t := t ++ [Effect.call (Call.BarrierImage cmd s.image
    [] [VkAccessFlagBits.VK_ACCESS_SHADER_WRITE_BIT]
    VkImageLayout.VK_IMAGE_LAYOUT_UNDEFINED VkImageLayout.VK_IMAGE_LAYOUT_GENERAL)]
  -- imageLayout = VK_IMAGE_LAYOUT_GENERAL
  let s := { s with imageLayout := VkImageLayout.VK_IMAGE_LAYOUT_GENERAL }
  let t := t ++ [Effect.assignImageLayout VkImageLayout.VK_IMAGE_LAYOUT_GENERAL]
  let t := t ++ [Effect.call (Call.Submit cmd)]
  let t := t ++ [Effect.call Call.WaitGraphicsIdle]
  let t := t ++ (UpdateDescriptors B s).map Effect.call
  t

/-- The effect is the submission of a command. -/
def Effect.isSubmit : Effect → Bool
  | Effect.call (Call.Submit _) => true
  | _ => false

/-- The effect is the host waiting for the queue to be idle. -/
def Effect.isWait : Effect → Bool
  | Effect.call Call.WaitGraphicsIdle => true
  | _ => false

/-- The effect assigns the member `imageLayout`. -/
def Effect.isAssignImageLayout : Effect → Bool
  | Effect.assignImageLayout _ => true
  | _ => false

/-- The effect rewrites descriptor sets. -/
def Effect.isUpdateDescriptorSets : Effect → Bool
  | Effect.call (Call.vkUpdateDescriptorSets _ _) => true
  | _ => false

/-- The effect records an image barrier. -/
def Effect.isBarrierImage : Effect → Bool
  | Effect.call (Call.BarrierImage _ _ _ _ _ _) => true
  | _ => false

/-! ## TextureOverrides (Source/TextureOverrides.cpp)

C strings are lists of characters without the terminating NUL, a null pointer
to a string is `none`.  The capacities of the character buffers
(TEXTURE_FILE_PATH_MAX_LENGTH and the like) are not among the sources and are
not modelled: the strings are taken to fit.  `uint32_t` arithmetic is done on
natural numbers modulo 2^32.
-/

/-- Reduction of a natural number to `uint32_t`. -/
def u32 (n : Nat) : Nat := n % 4294967296

/-- Subtraction of `uint32_t` values, wrapping around below zero. -/
def u32sub (a b : Nat) : Nat := (a % 4294967296 + 4294967296 - b % 4294967296) % 4294967296

/-- The local variables of ParseFilePath. -/
structure ParseFilePath.Locals where
  folderPathEnd : Nat
  nameStart : Nat
  nameEnd : Nat
  extStart : Nat
  len : Nat
  deriving DecidableEq, Repr

/-- The character is a folder delimiter, a backslash or a slash. -/
def isDelimiter (c : Char) : Bool :=
  c == Char.ofNat 92 || c == '/'

/-- The body of the while loop of ParseFilePath for the character `c`. -/
def ParseFilePath.body (c : Char) (v : ParseFilePath.Locals) : ParseFilePath.Locals :=
  let v :=
    -- find last folder delimiter
    if isDelimiter c then
      let v := { v with folderPathEnd := v.len }
      let v := { v with nameStart := u32 (v.len + 1) }
      -- reset, find new dot
      let v := { v with nameEnd := v.nameStart }
      { v with extStart := v.nameStart }
    -- find last dot that was after a delimiter
    else if c = '.' then
      let v := { v with nameEnd := u32sub v.len 1 }
      -- extension start with a dot
      { v with extStart := v.len }
    else v
  -- ++len
  { v with len := u32 (v.len + 1) }

/-- The while loop of ParseFilePath over the characters not yet read. -/
def ParseFilePath.scan : List Char → ParseFilePath.Locals → ParseFilePath.Locals
  | [], v => v
  | c :: rest, v => ParseFilePath.scan rest (ParseFilePath.body c v)

/-- The locals of ParseFilePath when the loop has read the whole path. -/
def ParseFilePath.afterLoop (filePath : List Char) : ParseFilePath.Locals :=
  ParseFilePath.scan filePath
    { folderPathEnd := 0, nameStart := 0, nameEnd := 0, extStart := 0, len := 0 }

/-- The condition of the assert of ParseFilePath:
`folderPathEnd > 0 || folderPathEnd == nameStart`. -/
def ParseFilePath.assertion (filePath : List Char) : Bool :=
  decide (0 < (ParseFilePath.afterLoop filePath).folderPathEnd) ||
  decide ((ParseFilePath.afterLoop filePath).folderPathEnd
    = (ParseFilePath.afterLoop filePath).nameStart)

/-- The three strings ParseFilePath writes. -/
structure ParsedFilePath where
  folderPath : List Char
  name : List Char
  extension : List Char
  deriving DecidableEq, Repr

/-- ParseFilePath; `none` when the assert fails. -/
def ParseFilePath (filePath : List Char) : Option ParsedFilePath :=
  let v := ParseFilePath.afterLoop filePath
  if ParseFilePath.assertion filePath = false then none else
  -- no dot
  let v :=
    if v.nameStart = v.nameEnd then
      let v := { v with nameEnd := u32sub v.len 1 }
      { v with extStart := v.len }
    else v
  let folderPathLen := u32 (v.folderPathEnd + 1)
  let nameLen := u32 (u32sub v.nameEnd v.nameStart + 1)
  let extLen := if v.extStart < v.len then u32sub v.len v.extStart else 0
  some
    { folderPath := filePath.take folderPathLen
      name := (filePath.drop v.nameStart).take nameLen
      extension := if extLen > 0 then (filePath.drop v.extStart).take extLen else [] }

/-- SPrintfIfNotNull, `pfx` being its parameter `postfix`: the string written to
the buffer when the postfix is not null; `none` when the postfix is null, where
only the pointer variable of the caller is set to null and the buffer is not
written. -/
def SPrintfIfNotNull (pfx : Option (List Char))
    (texturesPath folderPath name extension : List Char) : Option (List Char) :=
  match pfx with
  | some pfx => some (texturesPath ++ folderPath ++ name ++ pfx ++ extension)
  | none => none

/-- The members of OverrideInfo that the source reads. -/
structure OverrideInfo where
  texturesPath : List Char
  albedoAlphaPostfix : Option (List Char)
  normalMetallicPostfix : Option (List Char)
  emissionRoughnessPostfix : Option (List Char)
  aaIsSRGBDefault : Bool
  nmIsSRGBDefault : Bool
  erIsSRGBDefault : Bool
  deriving DecidableEq, Repr

/-- What ParseOverrideTexturePaths leaves behind: its return value, the content
of the three path buffers (`none` for a buffer it did not write) and the member
debugName. -/
structure OverridePaths where
  hasOverrides : Bool
  albedoAlphaPath : Option (List Char)
  normalMetallicPath : Option (List Char)
  emissionRoughnessPath : Option (List Char)
  debugName : List Char
  deriving DecidableEq, Repr

/-- TextureOverrides::ParseOverrideTexturePaths; `none` when the assert of
ParseFilePath fails.  `D` is TEXTURE_DEBUG_NAME_MAX_LENGTH, whose definition is
not among the sources. -/
def ParseOverrideTexturePaths (D : Nat) (relativePath : Option (List Char))
    (overrideInfo : OverrideInfo) : Option OverridePaths :=
  match relativePath with
  | none =>
    some { hasOverrides := false, albedoAlphaPath := none, normalMetallicPath := none,
           emissionRoughnessPath := none, debugName := [] }
  | some relativePath =>
    match ParseFilePath relativePath with
    | none => none
    | some p =>
      some
        { hasOverrides := true
          albedoAlphaPath := SPrintfIfNotNull overrideInfo.albedoAlphaPostfix
            overrideInfo.texturesPath p.folderPath p.name p.extension
          normalMetallicPath := SPrintfIfNotNull overrideInfo.normalMetallicPostfix
            overrideInfo.texturesPath p.folderPath p.name p.extension
          emissionRoughnessPath := SPrintfIfNotNull overrideInfo.emissionRoughnessPostfix
            overrideInfo.texturesPath p.folderPath p.name p.extension
          debugName := p.name.take (D - 1) }

/-- A pointer to image data; `nullptr` is `0`. -/
abbrev DataPtr := Nat

/-- The null pointer. -/
def nullptr : DataPtr := 0

/-- RgExtent2D. -/
structure RgExtent2D where
  width : Nat
  height : Nat
  deriving DecidableEq, Repr

/-- One texture of an RgTextureSet: its data and its sRGB flag. -/
structure RgTextureData where
  pData : DataPtr
  isSRGB : Bool
  deriving DecidableEq, Repr

/-- RgTextureSet. -/
structure RgTextureSet where
  albedoAlpha : RgTextureData
  normalsMetallicity : RgTextureData
  emissionRoughness : RgTextureData
  deriving DecidableEq, Repr

/-- What ImageLoader::Load hands back, as far as the constructor reads it. -/
structure ImageLoaderResult where
  pData : DataPtr
  width : Nat
  height : Nat
  deriving DecidableEq, Repr

/-- The data members of TextureOverrides that the constructor assigns. -/
structure TextureOverrides where
  aa : DataPtr
  aaSize : RgExtent2D
  aaIsSRGB : Bool
  nm : DataPtr
  nmSize : RgExtent2D
  nmIsSRGB : Bool
  er : DataPtr
  erSize : RgExtent2D
  erIsSRGB : Bool
  debugName : List Char
  deriving DecidableEq, Repr

/-- The constructor TextureOverrides::TextureOverrides taking an RgTextureSet;
`none` when the assert of ParseFilePath fails.  `Load` is ImageLoader::Load,
which is not among the sources; it is given the content of the path buffer,
`none` standing for a buffer that was never written. -/
def TextureOverrides.ctor (D : Nat) (Load : Option (List Char) → ImageLoaderResult)
    (relativePath : Option (List Char)) (defaultTextures : RgTextureSet)
    (defaultSize : RgExtent2D) (overrideInfo : OverrideInfo) : Option TextureOverrides :=
  let t : TextureOverrides :=
    { aa := nullptr, aaSize := { width := 0, height := 0 }, aaIsSRGB := false
      nm := nullptr, nmSize := { width := 0, height := 0 }, nmIsSRGB := false
      er := nullptr, erSize := { width := 0, height := 0 }, erIsSRGB := false
      debugName := [] }
  match ParseOverrideTexturePaths D relativePath overrideInfo with
  | none => none
  | some paths =>
    let t := { t with debugName := paths.debugName }
    let t :=
      if paths.hasOverrides then
        let aaImg := Load paths.albedoAlphaPath
        let nmImg := Load paths.normalMetallicPath
        let erImg := Load paths.emissionRoughnessPath
        -- don't check if wasn't loaded from file, pData might be provided by a user
        let t := { t with aa := aaImg.pData
                          aaSize := { width := aaImg.width, height := aaImg.height } }
        let t := { t with nm := nmImg.pData
                          nmSize := { width := nmImg.width, height := nmImg.height } }
        let t := { t with er := erImg.pData
                          erSize := { width := erImg.width, height := erImg.height } }
        { t with aaIsSRGB := overrideInfo.aaIsSRGBDefault
                 nmIsSRGB := overrideInfo.nmIsSRGBDefault
                 erIsSRGB := overrideInfo.erIsSRGBDefault }
      else t
    -- if file wasn't found, use default data instead
    let t :=
      if defaultTextures.albedoAlpha.pData ≠ nullptr ∧ t.aa = nullptr then
        { t with aa := defaultTextures.albedoAlpha.pData
                 aaSize := defaultSize
                 aaIsSRGB := defaultTextures.albedoAlpha.isSRGB }
      else t
    let t :=
      if defaultTextures.normalsMetallicity.pData ≠ nullptr ∧ t.nm = nullptr then
        { t with nm := defaultTextures.normalsMetallicity.pData
                 nmSize := defaultSize
                 nmIsSRGB := defaultTextures.normalsMetallicity.isSRGB }
      else t
    let t :=
      if defaultTextures.emissionRoughness.pData ≠ nullptr ∧ t.er = nullptr then
        { t with er := defaultTextures.emissionRoughness.pData
                 erSize := defaultSize
                 erIsSRGB := defaultTextures.emissionRoughness.isSRGB }
      else t
    some t

/-- The constructor TextureOverrides::TextureOverrides taking a single default
texture: it delegates with the set made of that texture and two empty ones. -/
def TextureOverrides.ctorSingle (D : Nat) (Load : Option (List Char) → ImageLoaderResult)
    (relativePath : Option (List Char)) (defaultData : DataPtr) (isSRGB : Bool)
    (defaultSize : RgExtent2D) (overrideInfo : OverrideInfo) : Option TextureOverrides :=
  TextureOverrides.ctor D Load relativePath
    { albedoAlpha := { pData := defaultData, isSRGB := isSRGB }
      normalsMetallicity := { pData := nullptr, isSRGB := false }
      emissionRoughness := { pData := nullptr, isSRGB := false } }
    defaultSize overrideInfo

/-- The data an override load produced for one texture: what the loader handed
back when the relative path is not null, the null pointer when nothing was
loaded. -/
def loadedData (relativePath : Option (List Char)) (img : ImageLoaderResult) : DataPtr :=
  if relativePath.isSome then img.pData else nullptr

/-- What the constructor is to store for one texture, given the result `img` of
loading its override file, the sRGB default of the override, the default
texture and the default size: the loaded override when there is one, else the
default when there is one; null exactly when there is neither. -/
def storesOverrideOrDefault (relativePath : Option (List Char)) (img : ImageLoaderResult)
    (isSRGBDefault : Bool) (dflt : RgTextureData) (defaultSize : RgExtent2D)
    (data : DataPtr) (size : RgExtent2D) (isSRGB : Bool) : Prop :=
  (relativePath.isSome = true → img.pData ≠ nullptr →
    data = img.pData ∧ size = { width := img.width, height := img.height } ∧
    isSRGB = isSRGBDefault) ∧
  (¬ (relativePath.isSome = true ∧ img.pData ≠ nullptr) → dflt.pData ≠ nullptr →
    data = dflt.pData ∧ size = defaultSize ∧ isSRGB = dflt.isSRGB) ∧
  (data = nullptr ↔ loadedData relativePath img = nullptr ∧ dflt.pData = nullptr)

/-- The constructor seen on one texture: what the block guarded by hasOverrides
and then the default block leave in the data, size and sRGB members of that
texture. -/
def storeOne (hasOverrides : Bool) (img : ImageLoaderResult) (isSRGBDefault : Bool)
    (dflt : RgTextureData) (defaultSize : RgExtent2D) : DataPtr × RgExtent2D × Bool :=
  let cur : DataPtr × RgExtent2D × Bool :=
    if hasOverrides then
      (img.pData, { width := img.width, height := img.height }, isSRGBDefault)
    else (nullptr, { width := 0, height := 0 }, false)
  if dflt.pData ≠ nullptr ∧ cur.1 = nullptr then (dflt.pData, defaultSize, dflt.isSRGB)
  else cur

/-- Example: the override directory and the three postfixes. -/
def overrideInfoExample : OverrideInfo :=
  { texturesPath := "ovrd/".toList
    albedoAlphaPostfix := some []
    normalMetallicPostfix := some "_n".toList
    emissionRoughnessPostfix := some "_e".toList
    aaIsSRGBDefault := true
    nmIsSRGBDefault := false
    erIsSRGBDefault := false }

/-- Example loader: only the albedo file of "dir/wall.png" exists. -/
def loadExample : Option (List Char) → ImageLoaderResult := fun path =>
  if path = some "ovrd/dir/wall.png".toList then { pData := 71, width := 64, height := 32 }
  else { pData := nullptr, width := 0, height := 0 }

/-- Example default textures: albedo and normals are given, emission is not. -/
def defaultTexturesExample : RgTextureSet :=
  { albedoAlpha := { pData := 81, isSRGB := true }
    normalsMetallicity := { pData := 82, isSRGB := false }
    emissionRoughness := { pData := nullptr, isSRGB := false } }

/-- Loop invariant of ParseFilePath when `n` characters have been read: `len`
is `n`, the name starts inside the part read, right after the last delimiter
when there is one past index 0, and either no dot was met since the name
started or `extStart` is the index of the last dot and `nameEnd` the index
before it. -/
def ParseFilePath.Inv (v : ParseFilePath.Locals) (n : Nat) : Prop :=
  v.len = n ∧ v.nameStart ≤ n ∧
  (v.folderPathEnd = 0 ∨ v.folderPathEnd < n) ∧
  (0 < v.folderPathEnd → v.nameStart = v.folderPathEnd + 1) ∧
  ((v.nameEnd = v.nameStart ∧ v.extStart = v.nameStart) ∨
   (v.nameStart ≤ v.extStart ∧ v.extStart < n ∧ v.nameEnd = u32sub v.extStart 1))

/-- A folder part of a path: empty, or at least two characters the last of which
is a delimiter. -/
def IsFolderPart (folder : List Char) : Prop :=
  folder = [] ∨ (2 ≤ folder.length ∧ ∃ init d, folder = init ++ [d] ∧ isDelimiter d = true)

/-! ## Concrete inputs -/

/-- Replies of a device on which every call of CreateImage succeeds. -/
def repliesA : CreateImageReplies :=
  { vkCreateImage := (VkResult.VK_SUCCESS, 11)
    vkGetImageMemoryRequirements := { size := 4096, alignment := 256, memoryTypeBits := 1 }
    AllocDedicated := AllocDedicatedReply.memoryHandle 12
    vkBindImageMemory := VkResult.VK_SUCCESS
    vkCreateImageView := (VkResult.VK_SUCCESS, 13)
    StartGraphicsCmd := 14 }

/-- Replies of a second successful creation, with other handles. -/
def repliesB : CreateImageReplies :=
  { vkCreateImage := (VkResult.VK_SUCCESS, 21)
    vkGetImageMemoryRequirements := { size := 8192, alignment := 256, memoryTypeBits := 1 }
    AllocDedicated := AllocDedicatedReply.memoryHandle 22
    vkBindImageMemory := VkResult.VK_SUCCESS
    vkCreateImageView := (VkResult.VK_SUCCESS, 23)
    StartGraphicsCmd := 24 }

/-- Replies in which the image is created and the allocator then fails. -/
def repliesAllocFails : CreateImageReplies :=
  { repliesA with AllocDedicated := AllocDedicatedReply.fails }

/-- Replies of a device on which the descriptor layout and pool are created. -/
def descriptorReplies : CreateDescriptorsReplies 2 :=
  { vkCreateDescriptorSetLayout := (VkResult.VK_SUCCESS, 1)
    vkCreateDescriptorPool := (VkResult.VK_SUCCESS, 2)
    vkAllocateDescriptorSets := fun i => 3 + i.val }

/-- A constructed object with two frame slots and no image yet. -/
def uninitializedObject : BasicStorageImage 2 :=
  { image := VK_NULL_HANDLE
    imageLayout := VkImageLayout.VK_IMAGE_LAYOUT_UNDEFINED
    width := 0
    height := 0
    view := VK_NULL_HANDLE
    memory := VK_NULL_HANDLE
    descLayout := 1
    descPool := 2
    descSets := fun i => 3 + i.val }

/-- An object with two frame slots holding an 800 x 600 image. -/
def readyObject : BasicStorageImage 2 :=
  { image := 11
    imageLayout := VkImageLayout.VK_IMAGE_LAYOUT_GENERAL
    width := 800
    height := 600
    view := 13
    memory := 12
    descLayout := 1
    descPool := 2
    descSets := fun i => 3 + i.val }

/-- A session on a constructed object: create 800 x 600, barrier, destroy,
create 1920 x 1080. -/
def sessionOps : List Op :=
  [Op.createImage repliesA 800 600, Op.barrier 30, Op.destroyImage,
   Op.createImage repliesB 1920 1080]

/-! ## Theorems -/

/-- C1: for positive width and height and every starting state, when every call
of CreateImage succeeds with non-null handles, CreateImage ends normally and the
object has image, view and memory all non-null, layout GENERAL, and the stored
width and height are the arguments. -/
theorem CreateImage_creation_validity {N : Nat} (B : Nat) (e : CreateImageReplies)
    (width height : Nat) (s : BasicStorageImage N)
    (_hw : 0 < width) (_hh : 0 < height) (he : e.allSucceed) :
    (CreateImage B e width height s).outcome = Outcome.ok ∧
    (CreateImage B e width height s).state.image ≠ VK_NULL_HANDLE ∧
    (CreateImage B e width height s).state.view ≠ VK_NULL_HANDLE ∧
    (CreateImage B e width height s).state.memory ≠ VK_NULL_HANDLE ∧
    (CreateImage B e width height s).state.imageLayout
      = VkImageLayout.VK_IMAGE_LAYOUT_GENERAL ∧
    (CreateImage B e width height s).state.width = width ∧
    (CreateImage B e width height s).state.height = height := by
  obtain ⟨h1, h2, h3, h4, h5, h6, h7, _⟩ := he
  cases hm : e.AllocDedicated with
  | fails => simp [hm, AllocDedicatedReply.returned] at h3
  | memoryHandle m =>
    have hm0 : m ≠ VK_NULL_HANDLE := by
      simpa [hm, AllocDedicatedReply.handle] using h4
    simp [CreateImage, VK_CHECKERROR, h1, h5, h6, hm]
    exact ⟨h2, h7, hm0⟩

/-- Witness of C1 at 1920 x 1080 on a ready object. -/
theorem CreateImage_creation_validity_witness :
    (0 < 1920 ∧ 0 < 1080 ∧ repliesB.allSucceed) ∧
    (CreateImage 0 repliesB 1920 1080 readyObject).outcome = Outcome.ok ∧
    (CreateImage 0 repliesB 1920 1080 readyObject).state.image ≠ VK_NULL_HANDLE ∧
    (CreateImage 0 repliesB 1920 1080 readyObject).state.view ≠ VK_NULL_HANDLE ∧
    (CreateImage 0 repliesB 1920 1080 readyObject).state.memory ≠ VK_NULL_HANDLE ∧
    (CreateImage 0 repliesB 1920 1080 readyObject).state.imageLayout
      = VkImageLayout.VK_IMAGE_LAYOUT_GENERAL ∧
    (CreateImage 0 repliesB 1920 1080 readyObject).state.width = 1920 ∧
    (CreateImage 0 repliesB 1920 1080 readyObject).state.height = 1080 :=
  ⟨by decide,
    CreateImage_creation_validity 0 repliesB 1920 1080 readyObject
      (by decide) (by decide) (by decide)⟩

/-- C2, refuted as stated: started from the Uninitialized object, when the
image is created and AllocDedicated then fails, CreateImage reports the failure
but the object keeps the image handle 11, so the triple is not all null, and the
following DestroyImage issues three release calls and changes the image
handle. -/
theorem CreateImage_alloc_failure_keeps_image :
    uninitializedObject.Uninitialized ∧
    repliesAllocFails.AllocDedicated = AllocDedicatedReply.fails ∧
    (CreateImage 0 repliesAllocFails 800 600 uninitializedObject).outcome
      = Outcome.ResourceCreationFailure ∧
    (CreateImage 0 repliesAllocFails 800 600 uninitializedObject).state.image = 11 ∧
    ¬ (CreateImage 0 repliesAllocFails 800 600 uninitializedObject).state.allNull ∧
    (DestroyImage (CreateImage 0 repliesAllocFails 800 600 uninitializedObject).state).calls
      = [Call.vkDestroyImage 11, Call.vkDestroyImageView 0, Call.FreeDedicated 0] ∧
    (DestroyImage (CreateImage 0 repliesAllocFails 800 600 uninitializedObject).state).state.image
      ≠ (CreateImage 0 repliesAllocFails 800 600 uninitializedObject).state.image := by
  refine ⟨by decide, rfl, rfl, rfl, by decide, rfl, by decide⟩

/-- C2, amended: started from an Uninitialized object, when vkCreateImage
succeeds with a non-null handle and AllocDedicated then fails, CreateImage
reports the failure after three calls, none of them a release; the object keeps
the new image handle while view and memory stay null and the layout stays
UNDEFINED; the following DestroyImage releases that image, the null view and the
null memory, and leaves the object Uninitialized. -/
theorem CreateImage_alloc_failure_no_rollback {N : Nat} (B : Nat) (e : CreateImageReplies)
    (width height : Nat) (s : BasicStorageImage N)
    (hs : s.Uninitialized)
    (hr : e.vkCreateImage.1 = VkResult.VK_SUCCESS)
    (hi : e.vkCreateImage.2 ≠ VK_NULL_HANDLE)
    (ha : e.AllocDedicated = AllocDedicatedReply.fails) :
    (CreateImage B e width height s).outcome = Outcome.ResourceCreationFailure ∧
    (CreateImage B e width height s).calls.length = 3 ∧
    (∀ c ∈ (CreateImage B e width height s).calls, c.isRelease = false) ∧
    (CreateImage B e width height s).state.image = e.vkCreateImage.2 ∧
    (CreateImage B e width height s).state.view = VK_NULL_HANDLE ∧
    (CreateImage B e width height s).state.memory = VK_NULL_HANDLE ∧
    (CreateImage B e width height s).state.imageLayout
      = VkImageLayout.VK_IMAGE_LAYOUT_UNDEFINED ∧
    (DestroyImage (CreateImage B e width height s).state).calls
      = [Call.vkDestroyImage e.vkCreateImage.2,
         Call.vkDestroyImageView VK_NULL_HANDLE,
         Call.FreeDedicated VK_NULL_HANDLE] ∧
    (DestroyImage (CreateImage B e width height s).state).state.Uninitialized := by
  obtain ⟨⟨_, hv, hm⟩, hl⟩ := hs
  simp [CreateImage, DestroyImage, VK_CHECKERROR, hr, hi, ha, hv, hm, hl,
    Call.isRelease, BasicStorageImage.Uninitialized, BasicStorageImage.allNull]

/-- Witness of the amended C2 at 800 x 600 on the Uninitialized object. -/
theorem CreateImage_alloc_failure_no_rollback_witness :
    (CreateImage 0 repliesAllocFails 800 600 uninitializedObject).outcome
      = Outcome.ResourceCreationFailure ∧
    (CreateImage 0 repliesAllocFails 800 600 uninitializedObject).calls.length = 3 ∧
    (∀ c ∈ (CreateImage 0 repliesAllocFails 800 600 uninitializedObject).calls,
      c.isRelease = false) ∧
    (CreateImage 0 repliesAllocFails 800 600 uninitializedObject).state.image
      = repliesAllocFails.vkCreateImage.2 ∧
    (CreateImage 0 repliesAllocFails 800 600 uninitializedObject).state.view
      = VK_NULL_HANDLE ∧
    (CreateImage 0 repliesAllocFails 800 600 uninitializedObject).state.memory
      = VK_NULL_HANDLE ∧
    (CreateImage 0 repliesAllocFails 800 600 uninitializedObject).state.imageLayout
      = VkImageLayout.VK_IMAGE_LAYOUT_UNDEFINED ∧
    (DestroyImage (CreateImage 0 repliesAllocFails 800 600 uninitializedObject).state).calls
      = [Call.vkDestroyImage repliesAllocFails.vkCreateImage.2,
         Call.vkDestroyImageView VK_NULL_HANDLE,
         Call.FreeDedicated VK_NULL_HANDLE] ∧
    (DestroyImage
      (CreateImage 0 repliesAllocFails 800 600 uninitializedObject).state).state.Uninitialized :=
  CreateImage_alloc_failure_no_rollback 0 repliesAllocFails 800 600 uninitializedObject
    (by decide) rfl (by decide) rfl

/-- C3: DestroyImage is idempotent.  For every state a second DestroyImage
leaves every field as the first left it and issues no call, both calls end
normally, and on a state whose image handle is null DestroyImage returns the
state unchanged with no call issued. -/
theorem DestroyImage_idempotent {N : Nat} (s : BasicStorageImage N) :
    (DestroyImage (DestroyImage s).state).state = (DestroyImage s).state ∧
    (DestroyImage (DestroyImage s).state).calls = [] ∧
    (DestroyImage s).outcome = Outcome.ok ∧
    (DestroyImage (DestroyImage s).state).outcome = Outcome.ok ∧
    (s.image = VK_NULL_HANDLE →
      (DestroyImage s).state = s ∧ (DestroyImage s).calls = []) := by
  by_cases h : s.image = VK_NULL_HANDLE
  · simp [DestroyImage, h]
  · simp [DestroyImage, h]

/-- Witness of C3 on the Uninitialized object, whose image handle is null. -/
theorem DestroyImage_idempotent_witness :
    uninitializedObject.image = VK_NULL_HANDLE ∧
    (DestroyImage uninitializedObject).state = uninitializedObject ∧
    (DestroyImage uninitializedObject).calls = [] :=
  ⟨rfl, (DestroyImage_idempotent uninitializedObject).2.2.2.2 rfl⟩

/-- C6, refuted as stated: on the ready object (image 11, view 13, memory 12)
DestroyImage does not release view, memory, image in that order; the image is
released first. -/
theorem DestroyImage_order_not_view_memory_image :
    readyObject.allValid ∧
    (DestroyImage readyObject).calls
      ≠ [Call.vkDestroyImageView 13, Call.FreeDedicated 12, Call.vkDestroyImage 11] ∧
    (DestroyImage readyObject).calls.head? = some (Call.vkDestroyImage 11) := by
  refine ⟨by decide, ?_, rfl⟩
  simp [DestroyImage, readyObject, VK_NULL_HANDLE]

/-- C6, amended: when the resource is valid, DestroyImage releases first the
image, then the image view, then the memory allocation (returned to the
allocator); after that image, view and memory are all the null handle and the
layout is UNDEFINED. -/
theorem DestroyImage_release_order {N : Nat} (s : BasicStorageImage N)
    (hv : s.allValid) :
    (DestroyImage s).calls
      = [Call.vkDestroyImage s.image, Call.vkDestroyImageView s.view,
         Call.FreeDedicated s.memory] ∧
    (DestroyImage s).state.image = VK_NULL_HANDLE ∧
    (DestroyImage s).state.view = VK_NULL_HANDLE ∧
    (DestroyImage s).state.memory = VK_NULL_HANDLE ∧
    (DestroyImage s).state.imageLayout = VkImageLayout.VK_IMAGE_LAYOUT_UNDEFINED := by
  obtain ⟨hi, _, _⟩ := hv
  simp [DestroyImage, hi]

/-- Witness of the amended C6 on the ready object. -/
theorem DestroyImage_release_order_witness :
    readyObject.allValid ∧
    (DestroyImage readyObject).calls
      = [Call.vkDestroyImage readyObject.image, Call.vkDestroyImageView readyObject.view,
         Call.FreeDedicated readyObject.memory] ∧
    (DestroyImage readyObject).state.image = VK_NULL_HANDLE ∧
    (DestroyImage readyObject).state.view = VK_NULL_HANDLE ∧
    (DestroyImage readyObject).state.memory = VK_NULL_HANDLE ∧
    (DestroyImage readyObject).state.imageLayout
      = VkImageLayout.VK_IMAGE_LAYOUT_UNDEFINED :=
  ⟨by decide, DestroyImage_release_order readyObject (by decide)⟩

/-- C7: Barrier changes no field.  For every state with a valid image and all
command streams, the state after one Barrier and after two Barriers in a row is
the starting state, both calls end normally, and each call records exactly one
image dependency, on the image of the object, with source access shader-write,
destination access shader-read and old and new layout both GENERAL. -/
theorem Barrier_purity {N : Nat} (cmd cmd2 : VkHandle) (s : BasicStorageImage N)
    (_hi : s.image ≠ VK_NULL_HANDLE) :
    (Barrier cmd s).state = s ∧
    (Barrier cmd2 (Barrier cmd s).state).state = s ∧
    (Barrier cmd s).outcome = Outcome.ok ∧
    (Barrier cmd2 (Barrier cmd s).state).outcome = Outcome.ok ∧
    (Barrier cmd s).calls
      = [Call.BarrierImage cmd s.image
          [VkAccessFlagBits.VK_ACCESS_SHADER_WRITE_BIT]
          [VkAccessFlagBits.VK_ACCESS_SHADER_READ_BIT]
          VkImageLayout.VK_IMAGE_LAYOUT_GENERAL VkImageLayout.VK_IMAGE_LAYOUT_GENERAL] ∧
    (Barrier cmd2 (Barrier cmd s).state).calls
      = [Call.BarrierImage cmd2 s.image
          [VkAccessFlagBits.VK_ACCESS_SHADER_WRITE_BIT]
          [VkAccessFlagBits.VK_ACCESS_SHADER_READ_BIT]
          VkImageLayout.VK_IMAGE_LAYOUT_GENERAL VkImageLayout.VK_IMAGE_LAYOUT_GENERAL] :=
  ⟨rfl, rfl, rfl, rfl, rfl, rfl⟩

/-- Witness of C7 on the ready object, with command streams 30 and 31. -/
theorem Barrier_purity_witness :
    readyObject.image ≠ VK_NULL_HANDLE ∧
    (Barrier 30 readyObject).state = readyObject ∧
    (Barrier 31 (Barrier 30 readyObject).state).state = readyObject ∧
    (Barrier 30 readyObject).outcome = Outcome.ok ∧
    (Barrier 31 (Barrier 30 readyObject).state).outcome = Outcome.ok ∧
    (Barrier 30 readyObject).calls
      = [Call.BarrierImage 30 readyObject.image
          [VkAccessFlagBits.VK_ACCESS_SHADER_WRITE_BIT]
          [VkAccessFlagBits.VK_ACCESS_SHADER_READ_BIT]
          VkImageLayout.VK_IMAGE_LAYOUT_GENERAL VkImageLayout.VK_IMAGE_LAYOUT_GENERAL] ∧
    (Barrier 31 (Barrier 30 readyObject).state).calls
      = [Call.BarrierImage 31 readyObject.image
          [VkAccessFlagBits.VK_ACCESS_SHADER_WRITE_BIT]
          [VkAccessFlagBits.VK_ACCESS_SHADER_READ_BIT]
          VkImageLayout.VK_IMAGE_LAYOUT_GENERAL VkImageLayout.VK_IMAGE_LAYOUT_GENERAL] :=
  ⟨by decide, Barrier_purity 30 31 readyObject (by decide)⟩

/-- A CreateImage that ends normally stores the view the device handed back and
ends with the single vkUpdateDescriptorSets call, whose writes are the only
descriptor writes of the trace. -/
theorem CreateImage_ok_calls {N : Nat} (B : Nat) (e : CreateImageReplies)
    (width height : Nat) (s : BasicStorageImage N)
    (hok : (CreateImage B e width height s).outcome = Outcome.ok) :
    (CreateImage B e width height s).state.view = e.vkCreateImageView.2 ∧
    (CreateImage B e width height s).calls.getLast?
      = some (Call.vkUpdateDescriptorSets N
          (List.ofFn fun i => storageImageWrite B (s.descSets i) e.vkCreateImageView.2)) ∧
    descriptorWrites (CreateImage B e width height s).calls
      = List.ofFn fun i => storageImageWrite B (s.descSets i) e.vkCreateImageView.2 := by
  unfold CreateImage at hok ⊢
  by_cases h1 : VK_CHECKERROR e.vkCreateImage.1 = false
  · simp [h1] at hok
  cases ha : e.AllocDedicated with
  | fails => simp [h1, ha] at hok
  | memoryHandle m =>
    by_cases h2 : VK_CHECKERROR e.vkBindImageMemory = false
    · simp [h1, ha, h2] at hok
    by_cases h3 : VK_CHECKERROR e.vkCreateImageView.1 = false
    · simp [h1, ha, h2, h3] at hok
    simp [h1, ha, h2, h3, UpdateDescriptors, descriptorWrites, storageImageWrite]

/-- Among the writes of one UpdateDescriptors, the last one aimed at the set of
slot `i` is the write for that set. -/
theorem find_last_storageImageWrite {N : Nat} (B : Nat) (sets : Fin N → VkHandle)
    (view : VkHandle) (i : Fin N) :
    (List.ofFn fun j => storageImageWrite B (sets j) view).reverse.find?
        (fun w => decide (w.dstSet = sets i))
      = some (storageImageWrite B (sets i) view) := by
  cases h : (List.ofFn fun j => storageImageWrite B (sets j) view).reverse.find?
      (fun w => decide (w.dstSet = sets i)) with
  | none =>
    rw [List.find?_eq_none] at h
    have hmem : storageImageWrite B (sets i) view
        ∈ (List.ofFn fun j => storageImageWrite B (sets j) view).reverse := by
      rw [List.mem_reverse, List.mem_ofFn]
      exact ⟨i, rfl⟩
    have := h _ hmem
    simp [storageImageWrite] at this
  | some w =>
    have hp := List.find?_some h
    have hmem := List.mem_of_find?_eq_some h
    rw [List.mem_reverse, List.mem_ofFn] at hmem
    obtain ⟨j, rfl⟩ := hmem
    have hj : sets j = sets i := by simpa [storageImageWrite] using hp
    show some (storageImageWrite B (sets j) view) = some (storageImageWrite B (sets i) view)
    rw [hj]

/-- C4: after a CreateImage that ends normally, the view of the object is the
one created by that call, the last call of the trace is the
vkUpdateDescriptorSets carrying all descriptor writes, exactly N writes are
issued, the write of slot i targets descSets[i] at binding BINDING_STORAGE_IMAGE
with type storage-image, layout GENERAL and that view, and it is also the last
write issued to descSets[i]. -/
theorem CreateImage_descriptor_rewrite {N : Nat} (B : Nat) (e : CreateImageReplies)
    (width height : Nat) (s : BasicStorageImage N)
    (hok : (CreateImage B e width height s).outcome = Outcome.ok) :
    (CreateImage B e width height s).state.view = e.vkCreateImageView.2 ∧
    (CreateImage B e width height s).calls.getLast?
      = some (Call.vkUpdateDescriptorSets N
          (descriptorWrites (CreateImage B e width height s).calls)) ∧
    (descriptorWrites (CreateImage B e width height s).calls).length = N ∧
    (∀ i : Fin N, (descriptorWrites (CreateImage B e width height s).calls)[i.val]?
      = some (storageImageWrite B (s.descSets i)
          (CreateImage B e width height s).state.view)) ∧
    (∀ i : Fin N, lastWrite (CreateImage B e width height s).calls (s.descSets i)
      = some (storageImageWrite B (s.descSets i)
          (CreateImage B e width height s).state.view)) := by
  obtain ⟨hv, hl, hw⟩ := CreateImage_ok_calls B e width height s hok
  refine ⟨hv, ?_, ?_, ?_, ?_⟩
  · rw [hw]; exact hl
  · rw [hw]; simp
  · intro i
    rw [hw, hv]
    simp
  · intro i
    rw [lastWrite, hw, hv]
    exact find_last_storageImageWrite B s.descSets _ i

/-- Witness of C4: a successful 800 x 600 creation on the Uninitialized object
with two frame slots and binding 0. -/
theorem CreateImage_descriptor_rewrite_witness :
    (CreateImage 0 repliesA 800 600 uninitializedObject).outcome = Outcome.ok ∧
    (CreateImage 0 repliesA 800 600 uninitializedObject).state.view
      = repliesA.vkCreateImageView.2 ∧
    (CreateImage 0 repliesA 800 600 uninitializedObject).calls.getLast?
      = some (Call.vkUpdateDescriptorSets 2
          (descriptorWrites (CreateImage 0 repliesA 800 600 uninitializedObject).calls)) ∧
    (descriptorWrites (CreateImage 0 repliesA 800 600 uninitializedObject).calls).length = 2 ∧
    (∀ i : Fin 2,
      (descriptorWrites (CreateImage 0 repliesA 800 600 uninitializedObject).calls)[i.val]?
      = some (storageImageWrite 0 (uninitializedObject.descSets i)
          (CreateImage 0 repliesA 800 600 uninitializedObject).state.view)) ∧
    (∀ i : Fin 2,
      lastWrite (CreateImage 0 repliesA 800 600 uninitializedObject).calls
        (uninitializedObject.descSets i)
      = some (storageImageWrite 0 (uninitializedObject.descSets i)
          (CreateImage 0 repliesA 800 600 uninitializedObject).state.view)) :=
  ⟨rfl, CreateImage_descriptor_rewrite 0 repliesA 800 600 uninitializedObject rfl⟩


/-- The allocation loop of CreateDescriptors leaves the image members alone. -/
theorem loop_frame {N : Nat} (e : CreateDescriptorsReplies N)
    (ai : VkDescriptorSetAllocateInfo) (k : Nat) (is : List (Fin N)) :
    ∀ (s : BasicStorageImage N) (p : DescriptorPool) (t : List Call),
    (CreateDescriptors.loop e ai k is s p t).run.state.image = s.image ∧
    (CreateDescriptors.loop e ai k is s p t).run.state.view = s.view ∧
    (CreateDescriptors.loop e ai k is s p t).run.state.memory = s.memory ∧
    (CreateDescriptors.loop e ai k is s p t).run.state.imageLayout = s.imageLayout := by
  induction is with
  | nil => intro s p t; simp [CreateDescriptors.loop]
  | cons i rest ih =>
    intro s p t
    unfold CreateDescriptors.loop
    by_cases h : VK_CHECKERROR (p.allocate ai.descriptorSetCount k).1 = false
    · simp [h]
    · simp only [h]
      exact ih _ _ _

/-- A pool with room for one more set of `k` descriptors accepts the allocation. -/
theorem allocate_one_ok (p : DescriptorPool) (k : Nat)
    (h1 : p.allocatedSets + 1 ≤ p.maxSets)
    (h2 : p.allocatedDescriptors + k ≤ p.descriptorCount) :
    p.allocate 1 k = (VkResult.VK_SUCCESS,
      { p with allocatedSets := p.allocatedSets + 1
               allocatedDescriptors := p.allocatedDescriptors + k }) := by
  simp [DescriptorPool.allocate, h1, h2]

/-- When the pool has room for all remaining slots, the allocation loop ends
normally, the pool has grown by one set per slot, and the calls added are one
vkAllocateDescriptorSets per slot and no pool creation. -/
theorem loop_success {N : Nat} (e : CreateDescriptorsReplies N)
    (ai : VkDescriptorSetAllocateInfo) (k : Nat) (hai : ai.descriptorSetCount = 1)
    (is : List (Fin N)) :
    ∀ (s : BasicStorageImage N) (p : DescriptorPool) (t : List Call),
    p.allocatedSets + is.length ≤ p.maxSets →
    p.allocatedDescriptors + is.length * k ≤ p.descriptorCount →
    (CreateDescriptors.loop e ai k is s p t).run.outcome = Outcome.ok ∧
    (CreateDescriptors.loop e ai k is s p t).pool
      = some { p with allocatedSets := p.allocatedSets + is.length
                      allocatedDescriptors := p.allocatedDescriptors + is.length * k } ∧
    ∃ u, (CreateDescriptors.loop e ai k is s p t).run.calls = t ++ u ∧
      u.countP Call.isAllocateDescriptorSets = is.length ∧
      u.filter Call.isCreateDescriptorPool = [] ∧
      ∀ c ∈ u, c.isAllocateDescriptorSets = true → c = Call.vkAllocateDescriptorSets ai := by
  induction is with
  | nil =>
    intro s p t _ _
    exact ⟨rfl, by simp [CreateDescriptors.loop], [], by simp [CreateDescriptors.loop]⟩
  | cons i rest ih =>
    intro s p t h1 h2
    have h1' : p.allocatedSets + 1 ≤ p.maxSets := by
      simp only [List.length_cons] at h1; omega
    have h2' : p.allocatedDescriptors + k ≤ p.descriptorCount := by
      simp only [List.length_cons, Nat.succ_mul] at h2; omega
    unfold CreateDescriptors.loop
    simp only [hai, allocate_one_ok p k h1' h2', VK_CHECKERROR]
    simp only [decide_True, Bool.true_eq_false, if_false, if_true]
    have h3 : p.allocatedSets + 1 + rest.length ≤ p.maxSets := by
      simp only [List.length_cons] at h1; omega
    have h4 : p.allocatedDescriptors + k + rest.length * k ≤ p.descriptorCount := by
      simp only [List.length_cons, Nat.succ_mul] at h2; omega
    obtain ⟨g1, g2, u, g3, g4, g5, g6⟩ := ih
      { s with descSets := Function.update s.descSets i (e.vkAllocateDescriptorSets i) }
      { p with allocatedSets := p.allocatedSets + 1
               allocatedDescriptors := p.allocatedDescriptors + k }
      (t ++ [Call.vkAllocateDescriptorSets ai] ++ [Call.SET_DEBUG_NAME
        (Function.update s.descSets i (e.vkAllocateDescriptorSets i) i)
        VkDebugReportObjectTypeEXT.VK_DEBUG_REPORT_OBJECT_TYPE_DESCRIPTOR_SET_EXT
        "Storage image Desc set"]) h3 h4
    refine ⟨g1, ?_, ?_⟩
    · rw [g2]
      simp only [List.length_cons, Nat.succ_mul]
      congr 2 <;> omega
    · refine ⟨[Call.vkAllocateDescriptorSets ai, Call.SET_DEBUG_NAME
        (Function.update s.descSets i (e.vkAllocateDescriptorSets i) i)
        VkDebugReportObjectTypeEXT.VK_DEBUG_REPORT_OBJECT_TYPE_DESCRIPTOR_SET_EXT
        "Storage image Desc set"] ++ u, ?_, ?_, ?_, ?_⟩
      · rw [g3]; simp
      · simp [List.countP_cons, Call.isAllocateDescriptorSets, g4]
      · simp [List.filter_cons, Call.isCreateDescriptorPool, g5]
      · intro c hc hca
        simp only [List.cons_append, List.nil_append, List.mem_cons] at hc
        rcases hc with rfl | rfl | hc
        · rfl
        · simp [Call.isAllocateDescriptorSets] at hca
        · exact g6 c hc hca

/-- Unfolding of CreateDescriptors when the layout and the pool are created and
the allocation loop ends normally. -/
theorem CreateDescriptors_of_loop_ok {N : Nat} (B : Nat) (e : CreateDescriptorsReplies N)
    (s : BasicStorageImage N)
    (hl : e.vkCreateDescriptorSetLayout.1 = VkResult.VK_SUCCESS)
    (hp : e.vkCreateDescriptorPool.1 = VkResult.VK_SUCCESS)
    (d : DescriptorsRun N)
    (hd : d = CreateDescriptors.loop e
        (CreateDescriptors.allocInfo e.vkCreateDescriptorPool.2 e.vkCreateDescriptorSetLayout.2)
        1 (List.finRange N)
        { s with descLayout := e.vkCreateDescriptorSetLayout.2
                 descPool := e.vkCreateDescriptorPool.2 }
        (DescriptorPool.create (CreateDescriptors.poolInfo N))
        [Call.vkCreateDescriptorSetLayout (CreateDescriptors.layoutInfo B),
         Call.vkCreateDescriptorPool (CreateDescriptors.poolInfo N)])
    (hok : d.run.outcome = Outcome.ok) :
    CreateDescriptors B e s =
      ⟨⟨Outcome.ok, d.run.state, d.run.calls ++
        [Call.SET_DEBUG_NAME d.run.state.descLayout
          VkDebugReportObjectTypeEXT.VK_DEBUG_REPORT_OBJECT_TYPE_DESCRIPTOR_SET_LAYOUT_EXT
          "Storage image Desc set Layout"]⟩, d.pool⟩ := by
  subst hd
  unfold CreateDescriptors
  have c1 : VK_CHECKERROR e.vkCreateDescriptorSetLayout.1 = true := by
    simp [VK_CHECKERROR, hl]
  have c2 : VK_CHECKERROR e.vkCreateDescriptorPool.1 = true := by
    simp [VK_CHECKERROR, hp]
  simp only [c1, c2, Bool.true_eq_false, if_false]
  split
  · rename_i h
    exact absurd (h.symm.trans hok) (by decide)
  · rfl

/-- CreateDescriptors leaves the image members alone, however it ends. -/
theorem CreateDescriptors_frame {N : Nat} (B : Nat) (e : CreateDescriptorsReplies N)
    (s : BasicStorageImage N) :
    (CreateDescriptors B e s).run.state.image = s.image ∧
    (CreateDescriptors B e s).run.state.view = s.view ∧
    (CreateDescriptors B e s).run.state.memory = s.memory ∧
    (CreateDescriptors B e s).run.state.imageLayout = s.imageLayout := by
  unfold CreateDescriptors
  by_cases h1 : VK_CHECKERROR e.vkCreateDescriptorSetLayout.1 = false
  · simp [h1]
  by_cases h2 : VK_CHECKERROR e.vkCreateDescriptorPool.1 = false
  · simp [h1, h2]
  have c1 : VK_CHECKERROR e.vkCreateDescriptorSetLayout.1 = true := by simpa using h1
  have c2 : VK_CHECKERROR e.vkCreateDescriptorPool.1 = true := by simpa using h2
  simp only [c1, c2, Bool.true_eq_false, if_false]
  split
  · exact loop_frame _ _ _ _ _ _ _
  · exact loop_frame _ _ _ _ _ _ _
/-- A pool whose sets are all allocated rejects every further allocation. -/
theorem full_pool_rejects (n k perSet : Nat) (hk : 0 < k) :
    (DescriptorPool.allocate
      { maxSets := n, descriptorCount := n, allocatedSets := n, allocatedDescriptors := n }
      k perSet).1 ≠ VkResult.VK_SUCCESS := by
  have h : ¬ (n + k ≤ n) := by omega
  simp [DescriptorPool.allocate, h, VK_ERROR_OUT_OF_POOL_MEMORY]

/-- C8: when the descriptor layout and the descriptor pool are created,
CreateDescriptors ends normally; it creates one pool, with maxSets and
storage-image descriptor count both N; the layout has a single storage-image
binding of one descriptor; exactly N vkAllocateDescriptorSets calls are issued,
each for one set from that pool with that layout; the pool then holds N of N
sets and N of N descriptors, and rejects every further allocation. -/
theorem CreateDescriptors_pool_exhausted {N : Nat} (B : Nat) (e : CreateDescriptorsReplies N)
    (s : BasicStorageImage N)
    (hl : e.vkCreateDescriptorSetLayout.1 = VkResult.VK_SUCCESS)
    (hp : e.vkCreateDescriptorPool.1 = VkResult.VK_SUCCESS) :
    (CreateDescriptors B e s).run.outcome = Outcome.ok ∧
    (CreateDescriptors B e s).run.calls.filter Call.isCreateDescriptorPool
      = [Call.vkCreateDescriptorPool
          { poolSizeCount := 1
            pPoolSizes :=
              [{ type := VkDescriptorType.VK_DESCRIPTOR_TYPE_STORAGE_IMAGE
                 descriptorCount := N }]
            maxSets := N }] ∧
    (CreateDescriptors B e s).run.calls.head?
      = some (Call.vkCreateDescriptorSetLayout
          { bindingCount := 1
            pBindings :=
              [{ binding := B
                 descriptorType := VkDescriptorType.VK_DESCRIPTOR_TYPE_STORAGE_IMAGE
                 descriptorCount := 1
                 stageFlags := [VkShaderStageFlagBits.VK_SHADER_STAGE_RAYGEN_BIT_KHR] }] }) ∧
    (CreateDescriptors B e s).run.calls.countP Call.isAllocateDescriptorSets = N ∧
    (∀ c ∈ (CreateDescriptors B e s).run.calls, c.isAllocateDescriptorSets = true →
      c = Call.vkAllocateDescriptorSets
        { descriptorPool := e.vkCreateDescriptorPool.2
          descriptorSetCount := 1
          pSetLayouts := [e.vkCreateDescriptorSetLayout.2] }) ∧
    (CreateDescriptors B e s).pool
      = some { maxSets := N, descriptorCount := N, allocatedSets := N,
               allocatedDescriptors := N } ∧
    (∀ p, (CreateDescriptors B e s).pool = some p →
      ∀ k perSet, 0 < k → (p.allocate k perSet).1 ≠ VkResult.VK_SUCCESS) := by
  have key := loop_success e
    (CreateDescriptors.allocInfo e.vkCreateDescriptorPool.2 e.vkCreateDescriptorSetLayout.2)
    1 rfl (List.finRange N)
    { s with descLayout := e.vkCreateDescriptorSetLayout.2
             descPool := e.vkCreateDescriptorPool.2 }
    (DescriptorPool.create (CreateDescriptors.poolInfo N))
    [Call.vkCreateDescriptorSetLayout (CreateDescriptors.layoutInfo B),
     Call.vkCreateDescriptorPool (CreateDescriptors.poolInfo N)]
    (by simp [DescriptorPool.create, CreateDescriptors.poolInfo])
    (by simp [DescriptorPool.create, CreateDescriptors.poolInfo, CreateDescriptors.poolSize])
  have heq := CreateDescriptors_of_loop_ok B e s hl hp _ rfl key.1
  generalize CreateDescriptors.loop e
    (CreateDescriptors.allocInfo e.vkCreateDescriptorPool.2 e.vkCreateDescriptorSetLayout.2)
    1 (List.finRange N)
    { s with descLayout := e.vkCreateDescriptorSetLayout.2
             descPool := e.vkCreateDescriptorPool.2 }
    (DescriptorPool.create (CreateDescriptors.poolInfo N))
    [Call.vkCreateDescriptorSetLayout (CreateDescriptors.layoutInfo B),
     Call.vkCreateDescriptorPool (CreateDescriptors.poolInfo N)] = d at key heq
  obtain ⟨_, k2, u, k3, k4, k5, k6⟩ := key
  have hpool : (CreateDescriptors B e s).pool
      = some { maxSets := N, descriptorCount := N, allocatedSets := N,
               allocatedDescriptors := N } := by
    rw [heq]
    simp [k2, DescriptorPool.create, CreateDescriptors.poolInfo, CreateDescriptors.poolSize]
  refine ⟨?_, ?_, ?_, ?_, ?_, hpool, ?_⟩
  · rw [heq]
  · rw [heq]
    simp [k3, List.filter_cons, Call.isCreateDescriptorPool, k5, CreateDescriptors.poolInfo,
      CreateDescriptors.poolSize]
  · rw [heq]
    simp [k3, CreateDescriptors.layoutInfo, CreateDescriptors.storageImageBinding]
  · rw [heq]
    simp [k3, List.countP_cons, Call.isAllocateDescriptorSets, k4]
  · intro c
    rw [heq]
    simp only [k3, List.mem_append, List.mem_cons, List.mem_singleton, List.not_mem_nil,
      or_false]
    rintro (((rfl | rfl) | hc) | rfl) hca
    · simp [Call.isAllocateDescriptorSets] at hca
    · simp [Call.isAllocateDescriptorSets] at hca
    · exact k6 c hc hca
    · simp [Call.isAllocateDescriptorSets] at hca
  · intro p hpp k perSet hk
    rw [hpool] at hpp
    cases hpp
    exact full_pool_rejects N k perSet hk
/-- Witness of C8 with two frame slots, binding 0. -/
theorem CreateDescriptors_pool_exhausted_witness :
    (descriptorReplies.vkCreateDescriptorSetLayout.1 = VkResult.VK_SUCCESS ∧
      descriptorReplies.vkCreateDescriptorPool.1 = VkResult.VK_SUCCESS) ∧
    (CreateDescriptors 0 descriptorReplies uninitializedObject).run.outcome = Outcome.ok ∧
    (CreateDescriptors 0 descriptorReplies uninitializedObject).run.calls.filter
        Call.isCreateDescriptorPool
      = [Call.vkCreateDescriptorPool
          { poolSizeCount := 1
            pPoolSizes :=
              [{ type := VkDescriptorType.VK_DESCRIPTOR_TYPE_STORAGE_IMAGE
                 descriptorCount := 2 }]
            maxSets := 2 }] ∧
    (CreateDescriptors 0 descriptorReplies uninitializedObject).run.calls.head?
      = some (Call.vkCreateDescriptorSetLayout
          { bindingCount := 1
            pBindings :=
              [{ binding := 0
                 descriptorType := VkDescriptorType.VK_DESCRIPTOR_TYPE_STORAGE_IMAGE
                 descriptorCount := 1
                 stageFlags := [VkShaderStageFlagBits.VK_SHADER_STAGE_RAYGEN_BIT_KHR] }] }) ∧
    (CreateDescriptors 0 descriptorReplies uninitializedObject).run.calls.countP
        Call.isAllocateDescriptorSets = 2 ∧
    (∀ c ∈ (CreateDescriptors 0 descriptorReplies uninitializedObject).run.calls,
      c.isAllocateDescriptorSets = true →
      c = Call.vkAllocateDescriptorSets
        { descriptorPool := descriptorReplies.vkCreateDescriptorPool.2
          descriptorSetCount := 1
          pSetLayouts := [descriptorReplies.vkCreateDescriptorSetLayout.2] }) ∧
    (CreateDescriptors 0 descriptorReplies uninitializedObject).pool
      = some { maxSets := 2, descriptorCount := 2, allocatedSets := 2,
               allocatedDescriptors := 2 } ∧
    (∀ p, (CreateDescriptors 0 descriptorReplies uninitializedObject).pool = some p →
      ∀ k perSet, 0 < k → (p.allocate k perSet).1 ≠ VkResult.VK_SUCCESS) :=
  ⟨⟨rfl, rfl⟩,
    CreateDescriptors_pool_exhausted 0 descriptorReplies uninitializedObject rfl rfl⟩

/-- The frame of CreateImage, however it ends: the descriptor members are not
assigned, no call creates or destroys a descriptor layout or pool or allocates
a set, and every descriptor write targets one of the existing sets. -/
theorem CreateImage_frame {N : Nat} (B : Nat) (e : CreateImageReplies)
    (width height : Nat) (s : BasicStorageImage N) :
    (CreateImage B e width height s).state.descLayout = s.descLayout ∧
    (CreateImage B e width height s).state.descPool = s.descPool ∧
    (CreateImage B e width height s).state.descSets = s.descSets ∧
    (∀ c ∈ (CreateImage B e width height s).calls,
      c.isDescriptorLayoutOrPoolLifetime = false ∧ c.isAllocateDescriptorSets = false) ∧
    (∀ w ∈ descriptorWrites (CreateImage B e width height s).calls,
      ∃ i, w.dstSet = s.descSets i) := by
  unfold CreateImage
  by_cases h1 : VK_CHECKERROR e.vkCreateImage.1 = false
  · simp [h1, Call.isDescriptorLayoutOrPoolLifetime, Call.isAllocateDescriptorSets,
      descriptorWrites]
  cases ha : e.AllocDedicated with
  | fails =>
    simp [h1, ha, Call.isDescriptorLayoutOrPoolLifetime, Call.isAllocateDescriptorSets,
      descriptorWrites]
  | memoryHandle m =>
    by_cases h2 : VK_CHECKERROR e.vkBindImageMemory = false
    · simp [h1, ha, h2, Call.isDescriptorLayoutOrPoolLifetime,
        Call.isAllocateDescriptorSets, descriptorWrites]
    by_cases h3 : VK_CHECKERROR e.vkCreateImageView.1 = false
    · simp [h1, ha, h2, h3, Call.isDescriptorLayoutOrPoolLifetime,
        Call.isAllocateDescriptorSets, descriptorWrites]
    simp [h1, ha, h2, h3, UpdateDescriptors, Call.isDescriptorLayoutOrPoolLifetime,
      Call.isAllocateDescriptorSets, descriptorWrites]
    intro w hw
    have hmem := List.mem_of_mem_take hw
    rw [List.mem_ofFn] at hmem
    obtain ⟨i, rfl⟩ := hmem
    exact ⟨i, rfl⟩

/-- The frame of DestroyImage. -/
theorem DestroyImage_frame {N : Nat} (s : BasicStorageImage N) :
    (DestroyImage s).state.descLayout = s.descLayout ∧
    (DestroyImage s).state.descPool = s.descPool ∧
    (DestroyImage s).state.descSets = s.descSets ∧
    (∀ c ∈ (DestroyImage s).calls,
      c.isDescriptorLayoutOrPoolLifetime = false ∧ c.isAllocateDescriptorSets = false) ∧
    descriptorWrites (DestroyImage s).calls = [] := by
  by_cases h : s.image = VK_NULL_HANDLE
  · simp [DestroyImage, h, descriptorWrites]
  · simp [DestroyImage, h, descriptorWrites, Call.isDescriptorLayoutOrPoolLifetime,
      Call.isAllocateDescriptorSets]

/-- The frame of Barrier. -/
theorem Barrier_frame {N : Nat} (cmd : VkHandle) (s : BasicStorageImage N) :
    (Barrier cmd s).state.descLayout = s.descLayout ∧
    (Barrier cmd s).state.descPool = s.descPool ∧
    (Barrier cmd s).state.descSets = s.descSets ∧
    (∀ c ∈ (Barrier cmd s).calls,
      c.isDescriptorLayoutOrPoolLifetime = false ∧ c.isAllocateDescriptorSets = false) ∧
    descriptorWrites (Barrier cmd s).calls = [] := by
  simp [Barrier, descriptorWrites, Call.isDescriptorLayoutOrPoolLifetime,
    Call.isAllocateDescriptorSets]

/-- C9: the descriptor layout handle, the descriptor pool handle and the N
descriptor set handles are assigned only during construction.  For every state
and all replies, CreateImage, DestroyImage and Barrier leave descLayout, descPool
and every descSets[i] unchanged, and issue no call that creates or destroys a
descriptor layout or pool or allocates a set; the descriptor writes of
CreateImage all target the existing sets, and DestroyImage and Barrier write no
descriptor. -/
theorem descriptors_assigned_only_at_construction {N : Nat} (B : Nat)
    (e : CreateImageReplies) (width height : Nat) (cmd : VkHandle)
    (s : BasicStorageImage N) :
    ((CreateImage B e width height s).state.descLayout = s.descLayout ∧
     (CreateImage B e width height s).state.descPool = s.descPool ∧
     (∀ i, (CreateImage B e width height s).state.descSets i = s.descSets i) ∧
     (∀ c ∈ (CreateImage B e width height s).calls,
       c.isDescriptorLayoutOrPoolLifetime = false ∧ c.isAllocateDescriptorSets = false) ∧
     (∀ w ∈ descriptorWrites (CreateImage B e width height s).calls,
       ∃ i, w.dstSet = s.descSets i)) ∧
    ((DestroyImage s).state.descLayout = s.descLayout ∧
     (DestroyImage s).state.descPool = s.descPool ∧
     (∀ i, (DestroyImage s).state.descSets i = s.descSets i) ∧
     (∀ c ∈ (DestroyImage s).calls,
       c.isDescriptorLayoutOrPoolLifetime = false ∧ c.isAllocateDescriptorSets = false) ∧
     descriptorWrites (DestroyImage s).calls = []) ∧
    ((Barrier cmd s).state.descLayout = s.descLayout ∧
     (Barrier cmd s).state.descPool = s.descPool ∧
     (∀ i, (Barrier cmd s).state.descSets i = s.descSets i) ∧
     (∀ c ∈ (Barrier cmd s).calls,
       c.isDescriptorLayoutOrPoolLifetime = false ∧ c.isAllocateDescriptorSets = false) ∧
     descriptorWrites (Barrier cmd s).calls = []) := by
  obtain ⟨a1, a2, a3, a4, a5⟩ := CreateImage_frame B e width height s
  obtain ⟨b1, b2, b3, b4, b5⟩ := DestroyImage_frame s
  obtain ⟨c1, c2, c3, c4, c5⟩ := Barrier_frame cmd s
  exact ⟨⟨a1, a2, fun i => congrFun a3 i, a4, a5⟩,
    ⟨b1, b2, fun i => congrFun b3 i, b4, b5⟩,
    ⟨c1, c2, fun i => congrFun c3 i, c4, c5⟩⟩

/-- C5: for positive dimensions and successful creations, the sequence
CreateImage(w1,h1); DestroyImage(); CreateImage(w2,h2) ends normally with width
w2 and height h2, its image, view and memory are the handles handed back to the
second creation, and the whole result (state and calls of the second creation)
is the same for any other first creation (other dimensions, other handles). -/
theorem recreate_resets_state {N : Nat} (B : Nat) (e1 e1' e2 : CreateImageReplies)
    (w1 h1 w1' h1' w2 h2 : Nat) (s : BasicStorageImage N)
    (_p1 : 0 < w1 ∧ 0 < h1) (_p1' : 0 < w1' ∧ 0 < h1') (_p2 : 0 < w2 ∧ 0 < h2)
    (he1 : e1.allSucceed) (he1' : e1'.allSucceed) (he2 : e2.allSucceed) :
    (recreate B e1 w1 h1 e2 w2 h2 s).outcome = Outcome.ok ∧
    (recreate B e1 w1 h1 e2 w2 h2 s).state.width = w2 ∧
    (recreate B e1 w1 h1 e2 w2 h2 s).state.height = h2 ∧
    (recreate B e1 w1 h1 e2 w2 h2 s).state.image = e2.vkCreateImage.2 ∧
    (recreate B e1 w1 h1 e2 w2 h2 s).state.view = e2.vkCreateImageView.2 ∧
    (recreate B e1 w1 h1 e2 w2 h2 s).state.memory = e2.AllocDedicated.handle ∧
    recreate B e1 w1 h1 e2 w2 h2 s = recreate B e1' w1' h1' e2 w2 h2 s := by
  obtain ⟨a1, a2, a3, a4, a5, a6, a7, _⟩ := he1
  obtain ⟨b1, b2, b3, b4, b5, b6, b7, _⟩ := he1'
  obtain ⟨c1, c2, c3, c4, c5, c6, c7, _⟩ := he2
  cases ha : e1.AllocDedicated with
  | fails => simp [ha, AllocDedicatedReply.returned] at a3
  | memoryHandle m1 =>
  cases hb : e1'.AllocDedicated with
  | fails => simp [hb, AllocDedicatedReply.returned] at b3
  | memoryHandle m1' =>
  cases hc : e2.AllocDedicated with
  | fails => simp [hc, AllocDedicatedReply.returned] at c3
  | memoryHandle m2 =>
  simp [recreate, CreateImage, DestroyImage, VK_CHECKERROR, UpdateDescriptors,
    AllocDedicatedReply.handle, a1, a2, a5, a6, b1, b2, b5, b6, c1, c5, c6, ha, hb, hc]

/-- Witness of C5: 800 x 600 with the handles 11, 12, 13 or 1024 x 768 with the
handles 21, 22, 23 first, then 1920 x 1080 with the handles 21, 22, 23. -/
theorem recreate_resets_state_witness :
    ((0 < 800 ∧ 0 < 600) ∧ (0 < 1024 ∧ 0 < 768) ∧ (0 < 1920 ∧ 0 < 1080) ∧
      repliesA.allSucceed ∧ repliesB.allSucceed) ∧
    (recreate 0 repliesA 800 600 repliesB 1920 1080 uninitializedObject).outcome
      = Outcome.ok ∧
    (recreate 0 repliesA 800 600 repliesB 1920 1080 uninitializedObject).state.width
      = 1920 ∧
    (recreate 0 repliesA 800 600 repliesB 1920 1080 uninitializedObject).state.height
      = 1080 ∧
    (recreate 0 repliesA 800 600 repliesB 1920 1080 uninitializedObject).state.image
      = repliesB.vkCreateImage.2 ∧
    (recreate 0 repliesA 800 600 repliesB 1920 1080 uninitializedObject).state.view
      = repliesB.vkCreateImageView.2 ∧
    (recreate 0 repliesA 800 600 repliesB 1920 1080 uninitializedObject).state.memory
      = repliesB.AllocDedicated.handle ∧
    recreate 0 repliesA 800 600 repliesB 1920 1080 uninitializedObject
      = recreate 0 repliesB 1024 768 repliesB 1920 1080 uninitializedObject :=
  ⟨by decide,
    recreate_resets_state 0 repliesA repliesB repliesB 800 600 1024 768 1920 1080
      uninitializedObject (by decide) (by decide) (by decide) (by decide) (by decide)
      (by decide)⟩

/-- A CreateImage whose calls all succeed with non-null handles leaves the
resource with all three handles and layout GENERAL. -/
theorem CreateImage_consistent {N : Nat} (B : Nat) (e : CreateImageReplies)
    (width height : Nat) (s : BasicStorageImage N) (he : e.allSucceed) :
    (CreateImage B e width height s).state.consistent := by
  obtain ⟨h1, h2, h3, h4, h5, h6, h7, _⟩ := he
  cases hm : e.AllocDedicated with
  | fails => simp [hm, AllocDedicatedReply.returned] at h3
  | memoryHandle m =>
    have hm0 : m ≠ VK_NULL_HANDLE := by
      simpa [hm, AllocDedicatedReply.handle] using h4
    right
    simp [CreateImage, VK_CHECKERROR, h1, h5, h6, hm, BasicStorageImage.allValid]
    exact ⟨h2, h7, hm0⟩

/-- DestroyImage keeps the resource in one of the two states. -/
theorem DestroyImage_consistent {N : Nat} (s : BasicStorageImage N)
    (hs : s.consistent) : (DestroyImage s).state.consistent := by
  by_cases h : s.image = VK_NULL_HANDLE
  · simpa [DestroyImage, h] using hs
  · left
    simp [DestroyImage, h, BasicStorageImage.allNull]

/-- The constructed object has no handle and layout UNDEFINED. -/
theorem ctor_consistent {N : Nat} (B : Nat) (e : CreateDescriptorsReplies N) :
    (BasicStorageImage.ctor B e).run.state.consistent := by
  obtain ⟨h1, h2, h3, h4⟩ := CreateDescriptors_frame B e
    { image := VK_NULL_HANDLE
      imageLayout := VkImageLayout.VK_IMAGE_LAYOUT_UNDEFINED
      width := 0
      height := 0
      view := VK_NULL_HANDLE
      memory := VK_NULL_HANDLE
      descLayout := VK_NULL_HANDLE
      descPool := VK_NULL_HANDLE
      descSets := fun _ => VK_NULL_HANDLE }
  left
  exact ⟨⟨h1, h2, h3⟩, h4⟩

/-- Successful operations keep the resource in one of the two states. -/
theorem runOps_consistent {N : Nat} (B : Nat) (ops : List Op) :
    ∀ s : BasicStorageImage N, s.consistent → (∀ o ∈ ops, o.successful) →
      (runOps B s ops).consistent := by
  induction ops with
  | nil => intro s hs _; exact hs
  | cons o rest ih =>
    intro s hs hall
    have ho : o.successful := hall o (List.mem_cons_self _ _)
    have hrest : ∀ o' ∈ rest, o'.successful :=
      fun o' ho' => hall o' (List.mem_cons_of_mem _ ho')
    have hstep : (Op.apply B s o).state.consistent := by
      cases o with
      | createImage e w h => exact CreateImage_consistent B e w h s ho.2.2
      | destroyImage => exact DestroyImage_consistent s hs
      | barrier cmd => exact hs
    exact ih _ hstep hrest

/-- C10: in every state reached from the constructed object by a finite sequence
of successful CreateImage (positive dimensions, non-null handles), DestroyImage
and Barrier calls, image, view and memory are all null or all non-null, the
layout is GENERAL exactly when they are non-null, and UNDEFINED exactly when
they are null. -/
theorem reachable_states_consistent {N : Nat} (B : Nat)
    (e0 : CreateDescriptorsReplies N) (ops : List Op)
    (_hc : (BasicStorageImage.ctor B e0).run.outcome = Outcome.ok)
    (hops : ∀ o ∈ ops, o.successful) :
    ((runOps B (BasicStorageImage.ctor B e0).run.state ops).allNull ∨
      (runOps B (BasicStorageImage.ctor B e0).run.state ops).allValid) ∧
    ((runOps B (BasicStorageImage.ctor B e0).run.state ops).imageLayout
        = VkImageLayout.VK_IMAGE_LAYOUT_GENERAL ↔
      (runOps B (BasicStorageImage.ctor B e0).run.state ops).allValid) ∧
    ((runOps B (BasicStorageImage.ctor B e0).run.state ops).imageLayout
        = VkImageLayout.VK_IMAGE_LAYOUT_UNDEFINED ↔
      (runOps B (BasicStorageImage.ctor B e0).run.state ops).allNull) := by
  have h := runOps_consistent B ops _ (ctor_consistent B e0) hops
  generalize runOps B (BasicStorageImage.ctor B e0).run.state ops = s at h
  rcases h with ⟨⟨hi, hv, hm⟩, hl⟩ | ⟨⟨hi, hv, hm⟩, hl⟩
  · refine ⟨Or.inl ⟨hi, hv, hm⟩, ?_, ?_⟩
    · constructor
      · intro hg; rw [hl] at hg; exact absurd hg (by decide)
      · intro hval; exact absurd hi hval.1
    · exact ⟨fun _ => ⟨hi, hv, hm⟩, fun _ => hl⟩
  · refine ⟨Or.inr ⟨hi, hv, hm⟩, ?_, ?_⟩
    · exact ⟨fun _ => ⟨hi, hv, hm⟩, fun _ => hl⟩
    · constructor
      · intro hu; rw [hl] at hu; exact absurd hu (by decide)
      · intro hnull; exact absurd hnull.1 hi

/-- Witness of C10: the object constructed with two frame slots, after the
session create, barrier, destroy, create. -/
theorem reachable_states_consistent_witness :
    ((BasicStorageImage.ctor 0 descriptorReplies).run.outcome = Outcome.ok ∧
      ∀ o ∈ sessionOps, o.successful) ∧
    ((runOps 0 (BasicStorageImage.ctor 0 descriptorReplies).run.state sessionOps).allNull ∨
      (runOps 0 (BasicStorageImage.ctor 0 descriptorReplies).run.state sessionOps).allValid) ∧
    ((runOps 0 (BasicStorageImage.ctor 0 descriptorReplies).run.state sessionOps).imageLayout
        = VkImageLayout.VK_IMAGE_LAYOUT_GENERAL ↔
      (runOps 0 (BasicStorageImage.ctor 0 descriptorReplies).run.state sessionOps).allValid) ∧
    ((runOps 0 (BasicStorageImage.ctor 0 descriptorReplies).run.state sessionOps).imageLayout
        = VkImageLayout.VK_IMAGE_LAYOUT_UNDEFINED ↔
      (runOps 0 (BasicStorageImage.ctor 0 descriptorReplies).run.state sessionOps).allNull) :=
  ⟨⟨rfl, by decide⟩,
    reachable_states_consistent 0 descriptorReplies sessionOps rfl (by decide)⟩

/-- The calls among the effects of CreateImage are the calls of CreateImage. -/
theorem effects_calls {N : Nat} (B : Nat) (e : CreateImageReplies)
    (width height : Nat) (s : BasicStorageImage N) :
    Effect.calls (CreateImage.effects B e width height s)
      = (CreateImage B e width height s).calls := by
  unfold CreateImage CreateImage.effects
  by_cases h1 : VK_CHECKERROR e.vkCreateImage.1 = false
  · simp [h1, Effect.calls]
  cases ha : e.AllocDedicated with
  | fails => simp [h1, ha, Effect.calls]
  | memoryHandle m =>
    by_cases h2 : VK_CHECKERROR e.vkBindImageMemory = false
    · simp [h1, ha, h2, Effect.calls]
    by_cases h3 : VK_CHECKERROR e.vkCreateImageView.1 = false
    · simp [h1, ha, h2, h3, Effect.calls]
    simp [h1, ha, h2, h3, Effect.calls, UpdateDescriptors]

/-- C11, refuted as stated: in the successful 800 x 600 creation on the
Uninitialized object the assignment of imageLayout is effect 9, the submission
of the command is effect 10 and the wait for the idle queue is effect 11, so
imageLayout is not set after the wait; it is set before the command is even
submitted. -/
theorem CreateImage_layout_set_before_submit :
    (CreateImage 0 repliesA 800 600 uninitializedObject).outcome = Outcome.ok ∧
    (CreateImage.effects 0 repliesA 800 600 uninitializedObject).indexOf
        (Effect.assignImageLayout VkImageLayout.VK_IMAGE_LAYOUT_GENERAL) = 9 ∧
    (CreateImage.effects 0 repliesA 800 600 uninitializedObject).indexOf
        (Effect.call (Call.Submit 14)) = 10 ∧
    (CreateImage.effects 0 repliesA 800 600 uninitializedObject).indexOf
        (Effect.call Call.WaitGraphicsIdle) = 11 ∧
    ¬ ((CreateImage.effects 0 repliesA 800 600 uninitializedObject).indexOf
        (Effect.call Call.WaitGraphicsIdle)
      < (CreateImage.effects 0 repliesA 800 600 uninitializedObject).indexOf
        (Effect.assignImageLayout VkImageLayout.VK_IMAGE_LAYOUT_GENERAL)) := by
  decide

/-- C11, amended: the effects of a successful CreateImage end with, in this
order, the start of a one-shot command, the layout transition recorded on it
(source access none, destination access shader-write, UNDEFINED to GENERAL, on
the new image), the assignment of imageLayout to GENERAL, the submission of
that command, the wait for the idle queue, and the rewrite of the descriptor
sets; nothing before them is a submission, a wait, an assignment of
imageLayout, a descriptor rewrite or a barrier, so no command is submitted
after the wait and the descriptor sets are rewritten only after it. -/
theorem CreateImage_effect_order {N : Nat} (B : Nat) (e : CreateImageReplies)
    (width height : Nat) (s : BasicStorageImage N)
    (hok : (CreateImage B e width height s).outcome = Outcome.ok) :
    ∃ pre : List Effect,
      CreateImage.effects B e width height s
        = pre ++
          [Effect.call Call.StartGraphicsCmd,
           Effect.call (Call.BarrierImage e.StartGraphicsCmd
             (CreateImage B e width height s).state.image
             [] [VkAccessFlagBits.VK_ACCESS_SHADER_WRITE_BIT]
             VkImageLayout.VK_IMAGE_LAYOUT_UNDEFINED VkImageLayout.VK_IMAGE_LAYOUT_GENERAL),
           Effect.assignImageLayout VkImageLayout.VK_IMAGE_LAYOUT_GENERAL,
           Effect.call (Call.Submit e.StartGraphicsCmd),
           Effect.call Call.WaitGraphicsIdle,
           Effect.call (Call.vkUpdateDescriptorSets N
             (descriptorWrites (CreateImage B e width height s).calls))] ∧
      ∀ x ∈ pre, x.isSubmit = false ∧ x.isWait = false ∧ x.isAssignImageLayout = false ∧
        x.isUpdateDescriptorSets = false ∧ x.isBarrierImage = false := by
  refine ⟨(CreateImage.effects B e width height s).take 7, ?_, ?_⟩
  · unfold CreateImage at hok ⊢
    unfold CreateImage.effects
    by_cases h1 : VK_CHECKERROR e.vkCreateImage.1 = false
    · simp [h1] at hok
    cases ha : e.AllocDedicated with
    | fails => simp [h1, ha] at hok
    | memoryHandle m =>
      by_cases h2 : VK_CHECKERROR e.vkBindImageMemory = false
      · simp [h1, ha, h2] at hok
      by_cases h3 : VK_CHECKERROR e.vkCreateImageView.1 = false
      · simp [h1, ha, h2, h3] at hok
      simp [h1, ha, h2, h3, UpdateDescriptors, descriptorWrites]
  · unfold CreateImage at hok
    unfold CreateImage.effects
    by_cases h1 : VK_CHECKERROR e.vkCreateImage.1 = false
    · simp [h1] at hok
    cases ha : e.AllocDedicated with
    | fails => simp [h1, ha] at hok
    | memoryHandle m =>
      by_cases h2 : VK_CHECKERROR e.vkBindImageMemory = false
      · simp [h1, ha, h2] at hok
      by_cases h3 : VK_CHECKERROR e.vkCreateImageView.1 = false
      · simp [h1, ha, h2, h3] at hok
      simp [h1, ha, h2, h3, Effect.isSubmit, Effect.isWait, Effect.isAssignImageLayout,
        Effect.isUpdateDescriptorSets, Effect.isBarrierImage]

/-- Witness of the amended C11: the successful 800 x 600 creation on the
Uninitialized object. -/
theorem CreateImage_effect_order_witness :
    (CreateImage 0 repliesA 800 600 uninitializedObject).outcome = Outcome.ok ∧
    ∃ pre : List Effect,
      CreateImage.effects 0 repliesA 800 600 uninitializedObject
        = pre ++
          [Effect.call Call.StartGraphicsCmd,
           Effect.call (Call.BarrierImage repliesA.StartGraphicsCmd
             (CreateImage 0 repliesA 800 600 uninitializedObject).state.image
             [] [VkAccessFlagBits.VK_ACCESS_SHADER_WRITE_BIT]
             VkImageLayout.VK_IMAGE_LAYOUT_UNDEFINED VkImageLayout.VK_IMAGE_LAYOUT_GENERAL),
           Effect.assignImageLayout VkImageLayout.VK_IMAGE_LAYOUT_GENERAL,
           Effect.call (Call.Submit repliesA.StartGraphicsCmd),
           Effect.call Call.WaitGraphicsIdle,
           Effect.call (Call.vkUpdateDescriptorSets 2
             (descriptorWrites (CreateImage 0 repliesA 800 600 uninitializedObject).calls))] ∧
      ∀ x ∈ pre, x.isSubmit = false ∧ x.isWait = false ∧ x.isAssignImageLayout = false ∧
        x.isUpdateDescriptorSets = false ∧ x.isBarrierImage = false :=
  ⟨rfl, CreateImage_effect_order 0 repliesA 800 600 uninitializedObject rfl⟩

/-- ParseFilePath hands back its three strings whenever its assert holds. -/
theorem ParseFilePath_isSome (p : List Char) (h : ParseFilePath.assertion p = true) :
    ∃ q, ParseFilePath p = some q := by
  unfold ParseFilePath
  simp [h]

/-- ParseOverrideTexturePaths returns whenever the relative path is null or the
assert of ParseFilePath holds on it, and its return value tells whether the
relative path is not null. -/
theorem ParseOverrideTexturePaths_isSome (D : Nat) (relativePath : Option (List Char))
    (overrideInfo : OverrideInfo)
    (hpre : ∀ p, relativePath = some p → ParseFilePath.assertion p = true) :
    ∃ paths, ParseOverrideTexturePaths D relativePath overrideInfo = some paths ∧
      paths.hasOverrides = relativePath.isSome := by
  cases relativePath with
  | none => exact ⟨_, rfl, rfl⟩
  | some p =>
    obtain ⟨q, hq⟩ := ParseFilePath_isSome p (hpre p rfl)
    simp [ParseOverrideTexturePaths, hq]

/-- The constructor, texture by texture. -/
theorem ctor_fields (D : Nat) (Load : Option (List Char) → ImageLoaderResult)
    (relativePath : Option (List Char)) (defaultTextures : RgTextureSet)
    (defaultSize : RgExtent2D) (overrideInfo : OverrideInfo) (paths : OverridePaths)
    (hpaths : ParseOverrideTexturePaths D relativePath overrideInfo = some paths) :
    ∃ t, TextureOverrides.ctor D Load relativePath defaultTextures defaultSize overrideInfo
        = some t ∧
      (t.aa, t.aaSize, t.aaIsSRGB) = storeOne paths.hasOverrides (Load paths.albedoAlphaPath)
        overrideInfo.aaIsSRGBDefault defaultTextures.albedoAlpha defaultSize ∧
      (t.nm, t.nmSize, t.nmIsSRGB) = storeOne paths.hasOverrides (Load paths.normalMetallicPath)
        overrideInfo.nmIsSRGBDefault defaultTextures.normalsMetallicity defaultSize ∧
      (t.er, t.erSize, t.erIsSRGB) = storeOne paths.hasOverrides
        (Load paths.emissionRoughnessPath)
        overrideInfo.erIsSRGBDefault defaultTextures.emissionRoughness defaultSize := by
  unfold TextureOverrides.ctor
  simp only [hpaths]
  refine ⟨_, rfl, ?_, ?_, ?_⟩
  all_goals
    unfold storeOne
    cases paths.hasOverrides
    · simp only [Bool.false_eq_true, if_false]
      split_ifs <;> simp_all
    · simp only [if_true]
      split_ifs <;> simp_all

/-- What the constructor leaves for one texture is the loaded override when
there is one, else the default when there is one, and null exactly when there
is neither. -/
theorem storeOne_spec (relativePath : Option (List Char)) (img : ImageLoaderResult)
    (isSRGBDefault : Bool) (dflt : RgTextureData) (defaultSize : RgExtent2D) :
    storesOverrideOrDefault relativePath img isSRGBDefault dflt defaultSize
      (storeOne relativePath.isSome img isSRGBDefault dflt defaultSize).1
      (storeOne relativePath.isSome img isSRGBDefault dflt defaultSize).2.1
      (storeOne relativePath.isSome img isSRGBDefault dflt defaultSize).2.2 := by
  unfold storesOverrideOrDefault storeOne loadedData
  cases relativePath.isSome <;>
  by_cases h1 : img.pData = nullptr <;>
  by_cases h2 : dflt.pData = nullptr <;>
  simp [h1, h2]

/-- C14: the construction of TextureOverrides completes whenever the relative
path is null or the assert of ParseFilePath holds on it, and then, for each of
albedo-alpha, normals-metallicity and emission-roughness: if the relative path
is not null and the loader returned non-null data for the override file, the
stored data, size and sRGB flag are the loaded data, the loaded width and height
and the sRGB default of OverrideInfo; otherwise, if the default data is not
null, they are the default data, the default size and the sRGB flag of the
default texture; and the stored data is null exactly when the loaded override
data and the default data are both null. -/
theorem TextureOverrides_stores_override_or_default (D : Nat)
    (Load : Option (List Char) → ImageLoaderResult)
    (relativePath : Option (List Char)) (defaultTextures : RgTextureSet)
    (defaultSize : RgExtent2D) (overrideInfo : OverrideInfo)
    (hpre : ∀ p, relativePath = some p → ParseFilePath.assertion p = true) :
    ∃ paths t, ParseOverrideTexturePaths D relativePath overrideInfo = some paths ∧
      TextureOverrides.ctor D Load relativePath defaultTextures defaultSize overrideInfo
        = some t ∧
      storesOverrideOrDefault relativePath (Load paths.albedoAlphaPath)
        overrideInfo.aaIsSRGBDefault defaultTextures.albedoAlpha defaultSize
        t.aa t.aaSize t.aaIsSRGB ∧
      storesOverrideOrDefault relativePath (Load paths.normalMetallicPath)
        overrideInfo.nmIsSRGBDefault defaultTextures.normalsMetallicity defaultSize
        t.nm t.nmSize t.nmIsSRGB ∧
      storesOverrideOrDefault relativePath (Load paths.emissionRoughnessPath)
        overrideInfo.erIsSRGBDefault defaultTextures.emissionRoughness defaultSize
        t.er t.erSize t.erIsSRGB := by
  obtain ⟨paths, hpaths, hhas⟩ :=
    ParseOverrideTexturePaths_isSome D relativePath overrideInfo hpre
  obtain ⟨t, ht, haa, hnm, her⟩ :=
    ctor_fields D Load relativePath defaultTextures defaultSize overrideInfo paths hpaths
  rw [hhas] at haa hnm her
  refine ⟨paths, t, hpaths, ht, ?_, ?_, ?_⟩
  · have h := storeOne_spec relativePath (Load paths.albedoAlphaPath)
      overrideInfo.aaIsSRGBDefault defaultTextures.albedoAlpha defaultSize
    rw [← haa] at h
    exact h
  · have h := storeOne_spec relativePath (Load paths.normalMetallicPath)
      overrideInfo.nmIsSRGBDefault defaultTextures.normalsMetallicity defaultSize
    rw [← hnm] at h
    exact h
  · have h := storeOne_spec relativePath (Load paths.emissionRoughnessPath)
      overrideInfo.erIsSRGBDefault defaultTextures.emissionRoughness defaultSize
    rw [← her] at h
    exact h

/-- Witness of C14: the texture "dir/wall.png" whose albedo override file exists,
with default albedo and normals textures of size 16 x 16. -/
theorem TextureOverrides_stores_override_or_default_witness :
    (∀ p, some "dir/wall.png".toList = some p → ParseFilePath.assertion p = true) ∧
    ∃ paths t, ParseOverrideTexturePaths 32 (some "dir/wall.png".toList) overrideInfoExample
        = some paths ∧
      TextureOverrides.ctor 32 loadExample (some "dir/wall.png".toList)
          defaultTexturesExample { width := 16, height := 16 } overrideInfoExample
        = some t ∧
      storesOverrideOrDefault (some "dir/wall.png".toList) (loadExample paths.albedoAlphaPath)
        overrideInfoExample.aaIsSRGBDefault defaultTexturesExample.albedoAlpha
        { width := 16, height := 16 } t.aa t.aaSize t.aaIsSRGB ∧
      storesOverrideOrDefault (some "dir/wall.png".toList)
        (loadExample paths.normalMetallicPath)
        overrideInfoExample.nmIsSRGBDefault defaultTexturesExample.normalsMetallicity
        { width := 16, height := 16 } t.nm t.nmSize t.nmIsSRGB ∧
      storesOverrideOrDefault (some "dir/wall.png".toList)
        (loadExample paths.emissionRoughnessPath)
        overrideInfoExample.erIsSRGBDefault defaultTexturesExample.emissionRoughness
        { width := 16, height := 16 } t.er t.erSize t.erIsSRGB :=
  ⟨fun p hp => by cases hp; decide,
    TextureOverrides_stores_override_or_default 32 loadExample (some "dir/wall.png".toList)
      defaultTexturesExample { width := 16, height := 16 } overrideInfoExample
      (fun p hp => by cases hp; decide)⟩

/-- C12, at the failing input "tex.png", a path without a folder: the assert
holds (folderPathEnd == nameStart == 0), ParseFilePath writes folderPath "t",
name "tex" and extension ".png", so folderPath ++ name ++ extension is
"ttex.png" and not the input, and the override path of the normal texture
becomes "ovrd/ttex_n.png". -/
theorem ParseFilePath_no_folder_duplicates_first_character :
    ParseFilePath.assertion "tex.png".toList = true ∧
    ParseFilePath "tex.png".toList
      = some { folderPath := "t".toList, name := "tex".toList, extension := ".png".toList } ∧
    "t".toList ++ "tex".toList ++ ".png".toList = "ttex.png".toList ∧
    "t".toList ++ "tex".toList ++ ".png".toList ≠ "tex.png".toList ∧
    (ParseOverrideTexturePaths 32 (some "tex.png".toList) overrideInfoExample).map
        (fun paths => paths.normalMetallicPath)
      = some (some "ovrd/ttex_n.png".toList) := by
  decide

/-- C13, at the failing input "dir/a.png", whose file name "a.png" has one
character before its dot: the assert holds, and ParseFilePath writes name
"a.png" and an empty extension instead of name "a" and extension ".png"; the
override path of the normal texture becomes "ovrd/dir/a.png_n". -/
theorem ParseFilePath_one_character_name_loses_extension :
    ParseFilePath.assertion "dir/a.png".toList = true ∧
    ParseFilePath "dir/a.png".toList
      = some { folderPath := "dir/".toList, name := "a.png".toList, extension := [] } ∧
    ParseFilePath "dir/a.png".toList
      ≠ some { folderPath := "dir/".toList, name := "a".toList,
               extension := ".png".toList } ∧
    (ParseOverrideTexturePaths 32 (some "dir/a.png".toList) overrideInfoExample).map
        (fun paths => paths.normalMetallicPath)
      = some (some "ovrd/dir/a.png_n".toList) := by
  decide

/-- The loop body on a delimiter. -/
theorem body_delimiter (c : Char) (v : ParseFilePath.Locals) (hc : isDelimiter c = true) :
    ParseFilePath.body c v =
      { folderPathEnd := v.len, nameStart := u32 (v.len + 1), nameEnd := u32 (v.len + 1),
        extStart := u32 (v.len + 1), len := u32 (v.len + 1) } := by
  simp [ParseFilePath.body, hc]

/-- The loop body on a dot. -/
theorem body_dot (v : ParseFilePath.Locals) :
    ParseFilePath.body '.' v =
      { v with nameEnd := u32sub v.len 1, extStart := v.len, len := u32 (v.len + 1) } := by
  have h : isDelimiter '.' = false := by decide
  simp [ParseFilePath.body, h]

/-- The loop body on any other character. -/
theorem body_plain (c : Char) (v : ParseFilePath.Locals) (hc : isDelimiter c = false)
    (hdot : c ≠ '.') :
    ParseFilePath.body c v = { v with len := u32 (v.len + 1) } := by
  simp [ParseFilePath.body, hc, hdot]

/-- The loop body on a character that is no delimiter keeps folderPathEnd and
nameStart. -/
theorem body_no_delimiter (c : Char) (v : ParseFilePath.Locals)
    (hc : isDelimiter c = false) :
    (ParseFilePath.body c v).folderPathEnd = v.folderPathEnd ∧
    (ParseFilePath.body c v).nameStart = v.nameStart ∧
    (ParseFilePath.body c v).len = u32 (v.len + 1) := by
  by_cases hdot : c = '.'
  · subst hdot; rw [body_dot]; exact ⟨rfl, rfl, rfl⟩
  · rw [body_plain c v hc hdot]; exact ⟨rfl, rfl, rfl⟩

/-- The loop body counts the character. -/
theorem body_len (c : Char) (v : ParseFilePath.Locals) :
    (ParseFilePath.body c v).len = u32 (v.len + 1) := by
  cases hc : isDelimiter c
  · exact (body_no_delimiter c v hc).2.2
  · rw [body_delimiter c v hc]

/-- The invariant is kept by the loop of ParseFilePath. -/
theorem scan_inv (rest : List Char) :
    ∀ (v : ParseFilePath.Locals) (n : Nat), ParseFilePath.Inv v n →
      n + rest.length < 4294967296 →
      ParseFilePath.Inv (ParseFilePath.scan rest v) (n + rest.length) := by
  induction rest with
  | nil => intro v n h _; simpa [ParseFilePath.scan] using h
  | cons c rest ih =>
    intro v n h hlen
    simp only [List.length_cons] at hlen
    have e : n + (c :: rest).length = n + 1 + rest.length := by
      simp only [List.length_cons]; omega
    rw [e, ParseFilePath.scan]
    apply ih _ (n + 1) _ (by omega)
    obtain ⟨fpe, ns, ne, es, len⟩ := v
    obtain ⟨h1, h2, h2', h3, h4⟩ := h
    simp only at h1 h2 h2' h3 h4
    subst h1
    have hu : u32 (len + 1) = len + 1 := by unfold u32; omega
    cases hd : isDelimiter c
    · by_cases hdot : c = '.'
      · subst hdot
        rw [body_dot]
        simp only [ParseFilePath.Inv, hu]
        exact ⟨trivial, by omega, by omega, h3, Or.inr ⟨h2, by omega, trivial⟩⟩
      · rw [body_plain c _ hd hdot]
        simp only [ParseFilePath.Inv, hu]
        refine ⟨trivial, by omega, by omega, h3, ?_⟩
        rcases h4 with h4 | ⟨a, b, c⟩
        · exact Or.inl h4
        · exact Or.inr ⟨a, by omega, c⟩
    · rw [body_delimiter c _ hd]
      simp only [ParseFilePath.Inv, hu]
      exact ⟨trivial, le_refl _, by omega, fun _ => trivial, Or.inl ⟨trivial, trivial⟩⟩

/-- The invariant holds when the loop of ParseFilePath has read the path. -/
theorem afterLoop_inv (path : List Char) (hlen : path.length < 4294967296) :
    ParseFilePath.Inv (ParseFilePath.afterLoop path) path.length := by
  have h := scan_inv path
    { folderPathEnd := 0, nameStart := 0, nameEnd := 0, extStart := 0, len := 0 } 0
    ⟨rfl, le_refl _, Or.inl rfl, fun h => absurd h (by decide), Or.inl ⟨rfl, rfl⟩⟩
    (by simpa using hlen)
  simpa [ParseFilePath.afterLoop] using h

/-- A middle piece and the rest make up the rest from the start of the piece. -/
theorem take_drop_append_drop (l : List Char) (a b : Nat) (hab : a ≤ b) :
    (l.drop a).take (b - a) ++ l.drop b = l.drop a := by
  have h : l.drop b = (l.drop a).drop (b - a) := by
    rw [List.drop_drop]
    congr 1
    omega
  rw [h, List.take_append_drop]

/-- What ParseFilePath writes on a path on which its assert holds: the folder
path is the first folderPathEnd + 1 characters, and name and extension together
are the path from nameStart on. -/
theorem ParseFilePath_outputs (path : List Char) (hlen : path.length < 4294967296)
    (hassert : ParseFilePath.assertion path = true) :
    ∃ q, ParseFilePath path = some q ∧
      q.folderPath = path.take ((ParseFilePath.afterLoop path).folderPathEnd + 1) ∧
      q.name ++ q.extension = path.drop (ParseFilePath.afterLoop path).nameStart := by
  have hinv := afterLoop_inv path hlen
  unfold ParseFilePath
  simp only [hassert, Bool.true_eq_false, if_false]
  refine ⟨_, rfl, ?_⟩
  generalize ParseFilePath.afterLoop path = v at hinv
  obtain ⟨fpe, ns, ne, es, len⟩ := v
  obtain ⟨h1, h2, h2', h3, h4⟩ := hinv
  simp only at h1 h2 h2' h3 h4
  subst h1
  by_cases hne : ns = ne
  · have e1 : u32 (fpe + 1) = fpe + 1 := by unfold u32; omega
    have e2 : u32 (u32sub (u32sub path.length 1) ns + 1) = path.length - ns := by
      unfold u32 u32sub; omega
    simp only [← hne, if_true, e1, e2, lt_irrefl, if_false, gt_iff_lt, List.append_nil,
      true_and]
    apply List.take_of_length_le
    simp
  · rcases h4 with ⟨h4, _⟩ | ⟨h5, h6, h7⟩
    · exact absurd h4.symm hne
    · have e1 : u32 (fpe + 1) = fpe + 1 := by unfold u32; omega
      have e2 : u32 (u32sub ne ns + 1) = es - ns := by
        rw [h7]; unfold u32 u32sub; omega
      have e3 : u32sub path.length es = path.length - es := by
        unfold u32sub; omega
      have e4 : 0 < path.length - es := by omega
      simp only [hne, if_false, e1, e2, h6, if_true, e3, gt_iff_lt, e4, true_and]
      have e5 : List.take (path.length - es) (List.drop es path) = List.drop es path := by
        apply List.take_of_length_le
        simp
      rw [e5]
      exact take_drop_append_drop path ns es h5

/-- Where C12 holds: on every path whose last delimiter is past index 0 the
three outputs of ParseFilePath partition the path. -/
theorem ParseFilePath_partition_of_folder (path : List Char)
    (hlen : path.length < 4294967296)
    (hfolder : 0 < (ParseFilePath.afterLoop path).folderPathEnd) :
    ∃ q, ParseFilePath path = some q ∧ q.folderPath ++ q.name ++ q.extension = path := by
  have hassert : ParseFilePath.assertion path = true := by
    simp [ParseFilePath.assertion, hfolder]
  obtain ⟨q, hq, hf, hn⟩ := ParseFilePath_outputs path hlen hassert
  have hns := (afterLoop_inv path hlen).2.2.2.1 hfolder
  refine ⟨q, hq, ?_⟩
  rw [List.append_assoc, hf, hn, hns, List.take_append_drop]

/-- Where C12 fails: on every path on which the assert holds with
folderPathEnd = 0, that is on every path without a folder, the three outputs
of ParseFilePath make up the first character of the path followed by the whole
path; this is not the path unless the path is empty. -/
theorem ParseFilePath_no_partition_without_folder (path : List Char)
    (hlen : path.length < 4294967296)
    (hassert : ParseFilePath.assertion path = true)
    (hnofolder : (ParseFilePath.afterLoop path).folderPathEnd = 0) :
    ∃ q, ParseFilePath path = some q ∧
      q.folderPath ++ q.name ++ q.extension = path.take 1 ++ path ∧
      (path ≠ [] → q.folderPath ++ q.name ++ q.extension ≠ path) := by
  obtain ⟨q, hq, hf, hn⟩ := ParseFilePath_outputs path hlen hassert
  have hns : (ParseFilePath.afterLoop path).nameStart = 0 := by
    simp only [ParseFilePath.assertion, hnofolder, lt_irrefl, decide_False, Bool.false_or,
      decide_eq_true_eq] at hassert
    exact hassert.symm
  have heq : q.folderPath ++ q.name ++ q.extension = path.take 1 ++ path := by
    rw [List.append_assoc, hf, hn, hns, hnofolder]
    simp
  refine ⟨q, hq, heq, ?_⟩
  intro hne hcontra
  rw [heq] at hcontra
  have hl := congrArg List.length hcontra
  cases path with
  | nil => exact hne rfl
  | cons c rest => simp at hl

/-- The loop over two pieces is the loop over the second after the first. -/
theorem scan_append (a b : List Char) :
    ∀ v, ParseFilePath.scan (a ++ b) v = ParseFilePath.scan b (ParseFilePath.scan a v) := by
  induction a with
  | nil => intro v; rfl
  | cons c a ih => intro v; exact ih _

/-- The loop over characters that are no delimiters keeps folderPathEnd and
nameStart and counts the characters. -/
theorem scan_no_delimiter (l : List Char) (hl : ∀ c ∈ l, isDelimiter c = false) :
    ∀ v : ParseFilePath.Locals, v.len + l.length < 4294967296 →
      (ParseFilePath.scan l v).folderPathEnd = v.folderPathEnd ∧
      (ParseFilePath.scan l v).nameStart = v.nameStart ∧
      (ParseFilePath.scan l v).len = v.len + l.length := by
  induction l with
  | nil => intro v _; exact ⟨rfl, rfl, rfl⟩
  | cons c l ih =>
    intro v h
    simp only [List.length_cons] at h
    have hc : isDelimiter c = false := hl c (List.mem_cons_self _ _)
    have hl' : ∀ c' ∈ l, isDelimiter c' = false :=
      fun c' h => hl c' (List.mem_cons_of_mem _ h)
    obtain ⟨b1, b2, b3⟩ := body_no_delimiter c v hc
    have hu : u32 (v.len + 1) = v.len + 1 := by unfold u32; omega
    rw [hu] at b3
    obtain ⟨h1, h2, h3⟩ := ih hl' (ParseFilePath.body c v) (by rw [b3]; omega)
    rw [ParseFilePath.scan, h1, h2, h3, b1, b2, b3]
    simp only [List.length_cons]
    exact ⟨trivial, trivial, by omega⟩

/-- The loop counts the characters it reads. -/
theorem scan_len (l : List Char) :
    ∀ v : ParseFilePath.Locals, v.len + l.length < 4294967296 →
      (ParseFilePath.scan l v).len = v.len + l.length := by
  induction l with
  | nil => intro v _; rfl
  | cons c l ih =>
    intro v h
    simp only [List.length_cons] at h
    have hu : u32 (v.len + 1) = v.len + 1 := by unfold u32; omega
    have b := body_len c v
    rw [hu] at b
    rw [ParseFilePath.scan, ih _ (by rw [b]; omega), b]
    simp only [List.length_cons]
    omega

/-- The loop over characters that are neither delimiters nor dots only counts
them. -/
theorem scan_plain (l : List Char) (hl : ∀ c ∈ l, isDelimiter c = false ∧ c ≠ '.') :
    ∀ v : ParseFilePath.Locals, v.len + l.length < 4294967296 →
      ParseFilePath.scan l v = { v with len := v.len + l.length } := by
  induction l with
  | nil => intro v _; rfl
  | cons c l ih =>
    intro v h
    simp only [List.length_cons] at h
    obtain ⟨hc, hdot⟩ := hl c (List.mem_cons_self _ _)
    have hl' : ∀ c' ∈ l, isDelimiter c' = false ∧ c' ≠ '.' :=
      fun c' h => hl c' (List.mem_cons_of_mem _ h)
    have hu : u32 (v.len + 1) = v.len + 1 := by unfold u32; omega
    rw [ParseFilePath.scan, body_plain c v hc hdot, hu, ih hl' _ (by simp only; omega)]
    simp only [List.length_cons]
    congr 1
    omega

/-- The locals of ParseFilePath after the folder part of a path. -/
theorem scan_folder (folder : List Char) (hfolder : IsFolderPart folder)
    (hlen : folder.length < 4294967296) :
    ParseFilePath.scan folder
        { folderPathEnd := 0, nameStart := 0, nameEnd := 0, extStart := 0, len := 0 }
      = { folderPathEnd := folder.length - 1, nameStart := folder.length,
          nameEnd := folder.length, extStart := folder.length, len := folder.length } := by
  rcases hfolder with rfl | ⟨_, init, d, rfl, hd⟩
  · rfl
  · simp only [List.length_append, List.length_singleton] at hlen
    have hl := scan_len init
      { folderPathEnd := 0, nameStart := 0, nameEnd := 0, extStart := 0, len := 0 }
      (by simp only; omega)
    simp only [Nat.zero_add] at hl
    have hu : u32 (init.length + 1) = init.length + 1 := by unfold u32; omega
    rw [scan_append]
    show ParseFilePath.body d _ = _
    rw [body_delimiter d _ hd, hl, hu]
    simp

/-- The locals of ParseFilePath when the loop has read a path made of a folder
part, a name without delimiter, a dot and an extension without delimiter and
without dot. -/
theorem afterLoop_of_parts (folder name ext : List Char) (hfolder : IsFolderPart folder)
    (hname : ∀ c ∈ name, isDelimiter c = false)
    (hext : ∀ c ∈ ext, isDelimiter c = false ∧ c ≠ '.')
    (hlen : folder.length + name.length + 1 + ext.length < 4294967296) :
    ParseFilePath.afterLoop (folder ++ name ++ '.' :: ext)
      = { folderPathEnd := folder.length - 1, nameStart := folder.length,
          nameEnd := u32sub (folder.length + name.length) 1,
          extStart := folder.length + name.length,
          len := folder.length + name.length + 1 + ext.length } := by
  unfold ParseFilePath.afterLoop
  rw [List.append_assoc, scan_append, scan_append, scan_folder folder hfolder (by omega)]
  obtain ⟨h1, h2, h3⟩ := scan_no_delimiter name hname
    { folderPathEnd := folder.length - 1, nameStart := folder.length,
      nameEnd := folder.length, extStart := folder.length, len := folder.length }
    (by simp only; omega)
  generalize ParseFilePath.scan name
    { folderPathEnd := folder.length - 1, nameStart := folder.length,
      nameEnd := folder.length, extStart := folder.length, len := folder.length } = v2
    at h1 h2 h3
  obtain ⟨fpe, ns, ne, es, len⟩ := v2
  simp only at h1 h2 h3
  subst h1 h2 h3
  have hu : u32 (folder.length + name.length + 1) = folder.length + name.length + 1 := by
    unfold u32; omega
  rw [ParseFilePath.scan, body_dot, scan_plain ext hext _ (by simp only [hu]; omega)]
  simp only [hu]

/-- ParseFilePath on a path made of a folder part, a name without delimiter, a
dot and an extension without delimiter and without dot, that is, on a path
whose file name has its last dot between `name` and `ext`: the assert holds;
when the name does not have exactly one character, the name written is `name`
and the extension written is the dot with `ext`; when the name has exactly one
character, the name written is the whole file name and the extension written is
empty. -/
theorem ParseFilePath_of_parts (folder name ext : List Char) (hfolder : IsFolderPart folder)
    (hname : ∀ c ∈ name, isDelimiter c = false)
    (hext : ∀ c ∈ ext, isDelimiter c = false ∧ c ≠ '.')
    (hlen : folder.length + name.length + 1 + ext.length < 4294967296) :
    ParseFilePath.assertion (folder ++ name ++ '.' :: ext) = true ∧
    ∃ q, ParseFilePath (folder ++ name ++ '.' :: ext) = some q ∧
      (name.length ≠ 1 → q.name = name ∧ q.extension = '.' :: ext) ∧
      (name.length = 1 → q.name = name ++ '.' :: ext ∧ q.extension = []) := by
  have hA := afterLoop_of_parts folder name ext hfolder hname hext hlen
  have hassert : ParseFilePath.assertion (folder ++ name ++ '.' :: ext) = true := by
    unfold ParseFilePath.assertion
    rw [hA]
    rcases hfolder with rfl | ⟨h2, _⟩
    · simp
    · have : 0 < folder.length - 1 := by omega
      simp [this]
  refine ⟨hassert, ?_⟩
  have hd1 : List.drop folder.length (folder ++ name ++ '.' :: ext) = name ++ '.' :: ext := by
    rw [List.append_assoc, List.drop_left]
  have hd2 : List.drop (folder.length + name.length) (folder ++ name ++ '.' :: ext)
      = '.' :: ext := by
    rw [← List.length_append, List.drop_left]
  unfold ParseFilePath
  simp only [hassert, Bool.true_eq_false, if_false]
  rw [hA]
  refine ⟨_, rfl, ?_, ?_⟩
  · intro hM
    have hne : ¬ (folder.length = u32sub (folder.length + name.length) 1) := by
      unfold u32sub; omega
    have e2 : u32 (u32sub (u32sub (folder.length + name.length) 1) folder.length + 1)
        = name.length := by
      unfold u32 u32sub; omega
    have e3 : folder.length + name.length < folder.length + name.length + 1 + ext.length := by
      omega
    have e4 : u32sub (folder.length + name.length + 1 + ext.length)
        (folder.length + name.length) = 1 + ext.length := by
      unfold u32sub; omega
    simp only [hne, if_false, e2, e3, if_true, e4, hd1, hd2, gt_iff_lt, List.take_left]
    have e5 : 0 < 1 + ext.length := by omega
    simp only [e5, if_true]
    refine ⟨trivial, ?_⟩
    apply List.take_of_length_le
    simp only [List.length_cons]
    omega
  · intro hM
    have he : folder.length = u32sub (folder.length + name.length) 1 := by
      unfold u32sub; omega
    have e2 : u32 (u32sub (u32sub (folder.length + name.length + 1 + ext.length) 1)
        folder.length + 1) = name.length + 1 + ext.length := by
      unfold u32 u32sub; omega
    simp only [← he, if_true, e2, lt_irrefl, if_false, hd1, gt_iff_lt]
    refine ⟨?_, trivial⟩
    apply List.take_of_length_le
    simp only [List.length_append, List.length_cons]
    omega

end RTGL1
